import Mathlib

/-!
# seq66: song editor frame and user settings

A shallow embedding of `seq_qt5/src/qperfeditframe64.cpp` (the song editor
frame) and of the setters of `libseq66/src/cfg/usrsettings.cpp`.

Conventions of the embedding:

* C++ `int` and `midipulse` values are Lean integers.  Signed overflow is
  undefined in C++, so the embedding describes the executions in which the
  arithmetic is defined; `/` on C++ integers truncates toward zero and is
  `Int.tdiv` here.  The explicit conversion `int(s)` of a `midipulse` is
  `to_int`, which keeps the low 32 bits.
* A member function `void T::f(args)` becomes `f args (self : T) : T`.
* Collaborators whose sources are not at hand (the performer, the song roll,
  the time bar) are records that keep what the frame hands to them.
* `float` and `double` values are rationals: the code embedded only compares
  and copies them.
* The trigger timeline, the undo and redo stacks, the tick clock and the
  playback resolver are modelled from the specification; each such definition
  says so.
-/

namespace seq66

/-! ## The performer, as seen from the song editor -/

/-- The member functions of `performer` that `qperfeditframe64.cpp` calls
through `perf()`, with their arguments. -/
inductive perf_call where
  | all_notes_off
  | set_transpose (transpose : Int)
  | push_trigger_undo
  | move_triggers (direction : Bool)
  | copy_triggers
  | set_looping (looping : Bool)
  deriving DecidableEq, Repr

/-- Whether a performer call changes the trigger timeline: `move_triggers` and
`copy_triggers` do, the others do not. -/
def perf_call.mutates_triggers : perf_call → Bool
  | .move_triggers _ => true
  | .copy_triggers => true
  | _ => false

/-- The performer as the frame sees it: the PPQN that `ppqn()` returns and the
calls received so far, oldest first. -/
structure performer where
  m_ppqn : Int
  m_calls : List perf_call
  deriving DecidableEq, Repr

namespace performer

/-- `performer::ppqn()`. -/
def ppqn (p : performer) : Int := p.m_ppqn

/-- Receiving one call appends it to the record of calls. -/
def receive (c : perf_call) (p : performer) : performer :=
  { p with m_calls := p.m_calls ++ [c] }

def all_notes_off (p : performer) : performer := p.receive .all_notes_off

def set_transpose (transpose : Int) (p : performer) : performer :=
  p.receive (.set_transpose transpose)

def push_trigger_undo (p : performer) : performer := p.receive .push_trigger_undo

def move_triggers (direction : Bool) (p : performer) : performer :=
  p.receive (.move_triggers direction)

def copy_triggers (p : performer) : performer := p.receive .copy_triggers

def set_looping (looping : Bool) (p : performer) : performer :=
  p.receive (.set_looping looping)

end performer

/-! ## The song roll and the time bar -/

/-- The song roll (`qperfroll`), reduced to the guide values and the zoom it
holds.  `set_guides` keeps the values it is handed. -/
structure qperfroll where
  m_snap : Int
  m_measure_length : Int
  m_beat_length : Int
  m_zoom : Int
  deriving DecidableEq, Repr

/-- `qperfroll::set_guides(snap, measure, beat)`. -/
def qperfroll.set_guides (snap measure beat : Int) (r : qperfroll) : qperfroll :=
  { r with m_snap := snap, m_measure_length := measure, m_beat_length := beat }

/-- The time bar (`qperftime`), reduced to the guide values and the zoom it
holds. -/
structure qperftime where
  m_snap : Int
  m_measure_length : Int
  m_zoom : Int
  deriving DecidableEq, Repr

/-- `qperftime::set_guides(snap, measure)`. -/
def qperftime.set_guides (snap measure : Int) (t : qperftime) : qperftime :=
  { t with m_snap := snap, m_measure_length := measure }

/-! ## `qperfeditframe64` -/

/-- The data members of `qperfeditframe64` that its member functions read or
write, with the performer it refers to and the two child panels it owns. -/
structure qperfeditframe64 where
  m_mainperf : performer
  m_snap : Int
  m_beats_per_measure : Int
  m_beat_width : Int
  m_ppqn : Int
  m_perfroll : qperfroll
  m_perftime : qperftime
  deriving DecidableEq, Repr

/-- Modelled from the spec: `power(base, exponent)` belongs to the calculations
module, which is not among the sources.  The documentation of `updateGridSnap`
says that for 0 to 5 the index "is the exponent of 2 that yields the snap
value", and `updateGridSnap` provides for a result of 0; so `power` is integer
exponentiation, with 0 for an exponent that is not a natural number. -/
def power (base exponent : Int) : Int :=
  if exponent < 0 then 0 else base ^ exponent.toNat

namespace qperfeditframe64

/-- `qperfeditframe64::set_guides()`: inside the guard, the measure, snap and
beat lengths are computed from the performer's PPQN and handed to the song roll
(all three) and the time bar (snap and measure). -/
def set_guides (f : qperfeditframe64) : qperfeditframe64 :=
  if 0 < f.m_beat_width ∧ 0 < f.m_snap then
    let pp : Int := f.m_mainperf.ppqn * 4
    let measure_ticks : Int := Int.tdiv (pp * f.m_beats_per_measure) f.m_beat_width
    let snap_ticks : Int := Int.tdiv measure_ticks f.m_snap
    let beat_ticks : Int := Int.tdiv pp f.m_beat_width
    { f with
      m_perfroll := f.m_perfroll.set_guides snap_ticks measure_ticks beat_ticks
      m_perftime := f.m_perftime.set_guides snap_ticks measure_ticks }
  else f

/-- `qperfeditframe64::updateGridSnap(snapindex)`, with the function used for
`power` as an argument. -/
def updateGridSnapWith (pw : Int → Int → Int) (snapindex : Int)
    (f : qperfeditframe64) : qperfeditframe64 :=
  let snap0 : Int := pw 2 snapindex
  let snap : Int := if snap0 = 0 then 16 else snap0
  set_guides { f with m_snap := snap }

/-- `qperfeditframe64::updateGridSnap(snapindex)`. -/
def updateGridSnap (snapindex : Int) (f : qperfeditframe64) : qperfeditframe64 :=
  updateGridSnapWith power snapindex f

/-- `qperfeditframe64::set_transpose(transpose)`. -/
def set_transpose (transpose : Int) (f : qperfeditframe64) : qperfeditframe64 :=
  let p1 := f.m_mainperf.all_notes_off
  let p2 := p1.set_transpose transpose
  { f with m_mainperf := p2 }

/-- `qperfeditframe64::markerCollapse()`. -/
def markerCollapse (f : qperfeditframe64) : qperfeditframe64 :=
  let p1 := f.m_mainperf.push_trigger_undo
  let p2 := p1.move_triggers false
  { f with m_mainperf := p2 }

/-- `qperfeditframe64::markerExpand()`. -/
def markerExpand (f : qperfeditframe64) : qperfeditframe64 :=
  let p1 := f.m_mainperf.push_trigger_undo
  let p2 := p1.move_triggers true
  { f with m_mainperf := p2 }

/-- `qperfeditframe64::markerExpandCopy()`. -/
def markerExpandCopy (f : qperfeditframe64) : qperfeditframe64 :=
  let p1 := f.m_mainperf.push_trigger_undo
  let p2 := p1.copy_triggers
  { f with m_mainperf := p2 }

/-- `qperfeditframe64::markerLoop(loop)`. -/
def markerLoop (loop : Bool) (f : qperfeditframe64) : qperfeditframe64 :=
  { f with m_mainperf := f.m_mainperf.set_looping loop }

/-- The calls that the performer received between the frame states `f` and
`g`: what `g` has recorded beyond what `f` had. -/
def issued (f g : qperfeditframe64) : List perf_call :=
  g.m_mainperf.m_calls.drop f.m_mainperf.m_calls.length

end qperfeditframe64

/-- Modelled from the spec: the snapping of a tick is done by the song roll,
which is not among the sources.  Section 4.5 of the specification:
`snap_tick(t, snap_divisor) = floor(t / snap_unit) * snap_unit`; the snap unit
is the snap length that `set_guides` hands over. -/
def snap_tick (t snap_unit : Int) : Int :=
  Int.fdiv t snap_unit * snap_unit

/-- A frame as the constructor leaves its members (snap 8, four beats of width
four), for a performer of the given PPQN that has received no call, before any
guide is set. -/
def new_frame (ppqn : Int) : qperfeditframe64 :=
  { m_mainperf := { m_ppqn := ppqn, m_calls := [] }
    m_snap := 8
    m_beats_per_measure := 4
    m_beat_width := 4
    m_ppqn := ppqn
    m_perfroll := { m_snap := 0, m_measure_length := 0, m_beat_length := 0, m_zoom := 0 }
    m_perftime := { m_snap := 0, m_measure_length := 0, m_zoom := 0 } }

/-- The constants and macros that `usrsettings.cpp` takes from headers which
are not among the sources (`usrsettings.hpp`, `screenset.hpp`,
`app_limits.h`, ...).  Their values are arguments of the embedding. -/
structure header_values where
  option_none : Nat
  option_rows : Nat
  option_columns : Nat
  option_scale : Nat
  option_ppqn : Nat
  option_buss : Nat
  option_session_mgr : Nat
  c_default_rows : Int
  c_min_rows : Int
  c_max_rows : Int
  c_default_columns : Int
  c_min_columns : Int
  c_max_columns : Int
  c_max_sets : Int
  SEQ66_DEFAULT_ZOOM : Int
  SEQ66_MINIMUM_ZOOM : Int
  SEQ66_MAXIMUM_ZOOM : Int
  SEQ66_USE_ZOOM_POWER_OF_2 : Int
  SEQ66_DEFAULT_PPQN : Int
  SEQ66_MINIMUM_PPQN : Int
  SEQ66_MAXIMUM_PPQN : Int
  SEQ66_DEFAULT_BEATS_PER_MEASURE : Int
  SEQ66_DEFAULT_BEAT_WIDTH : Int
  SEQ66_DEFAULT_BPM : Rat
  c_midibyte_value_max : Rat
  null_buss : Int
  SEQ66_PRESERVE_VELOCITY : Int
  SEQ66_DEFAULT_BPM_PRECISION : Int
  SEQ66_DEFAULT_BPM_STEP_INCREMENT : Rat
  SEQ66_DEFAULT_BPM_PAGE_INCREMENT : Rat
  SEQ66_SEQKEY_HEIGHT_DEFAULT : Int
  c_scales_off : Int
  c_key_of_C : Int
  seq_limit : Int
  seq_maximum : Int

/-- The values that the comments of `usrsettings.cpp` document: rows from 4 to
8 (default 4), columns with default 8, PPQN from 32 to 19200 (default 192),
zoom from 1 to 512 with 0 as the special value, beat width 4.  The option
flags are distinct single bits. -/
def documented_values : header_values :=
  { option_none := 0
    option_rows := 1
    option_columns := 2
    option_scale := 4
    option_ppqn := 8
    option_buss := 16
    option_session_mgr := 32
    c_default_rows := 4
    c_min_rows := 4
    c_max_rows := 8
    c_default_columns := 8
    c_min_columns := 4
    c_max_columns := 12
    c_max_sets := 32
    SEQ66_DEFAULT_ZOOM := 2
    SEQ66_MINIMUM_ZOOM := 1
    SEQ66_MAXIMUM_ZOOM := 512
    SEQ66_USE_ZOOM_POWER_OF_2 := 0
    SEQ66_DEFAULT_PPQN := 192
    SEQ66_MINIMUM_PPQN := 32
    SEQ66_MAXIMUM_PPQN := 19200
    SEQ66_DEFAULT_BEATS_PER_MEASURE := 4
    SEQ66_DEFAULT_BEAT_WIDTH := 4
    SEQ66_DEFAULT_BPM := 120
    c_midibyte_value_max := 127
    null_buss := 255
    SEQ66_PRESERVE_VELOCITY := -1
    SEQ66_DEFAULT_BPM_PRECISION := 0
    SEQ66_DEFAULT_BPM_STEP_INCREMENT := 1
    SEQ66_DEFAULT_BPM_PAGE_INCREMENT := 10
    SEQ66_SEQKEY_HEIGHT_DEFAULT := 12
    c_scales_off := 0
    c_key_of_C := 0
    seq_limit := 2048
    seq_maximum := 1024 }

/-- The enumeration `usrsettings::session`. -/
inductive session where
  | none
  | nsm
  | lash
  deriving DecidableEq, Repr

/-- The enumeration `recordstyle`, of which `usrsettings.cpp` names `merge`. -/
inductive recordstyle where
  | merge
  | overwrite
  | expand
  deriving DecidableEq, Repr

/-- A user MIDI bus definition: whether it is valid, its alias and the
instrument number of each channel. -/
structure usermidibus where
  m_is_valid : Bool
  m_alias : String
  m_instruments : List Int
  deriving DecidableEq, Repr

namespace usermidibus

/-- Modelled from the spec: the class `usermidibus` is not among the sources.
The documentation of `private_bus` describes the default-constructed object:
it is invalid, "has an empty alias, and all the instrument numbers are -1". -/
def s_invalid : usermidibus :=
  { m_is_valid := false, m_alias := "", m_instruments := List.replicate 16 (-1) }

/-- Modelled from the spec: `usermidibus::is_valid()`, which tells a defined
bus from the invalid object. -/
def is_valid (mb : usermidibus) : Bool := mb.m_is_valid

/-- Modelled from the spec: `usermidibus::set_instrument(channel, instrum)`,
which writes the instrument number of a channel of a valid bus and reports
whether it did. -/
def set_instrument (channel instrum : Int) (mb : usermidibus) : Bool × usermidibus :=
  if mb.m_is_valid = true ∧ 0 ≤ channel ∧ channel < mb.m_instruments.length then
    (true, { mb with m_instruments := mb.m_instruments.set channel.toNat instrum })
  else (false, mb)

end usermidibus

/-- What `private_bus` returns a reference to: an element of the container
`m_midi_buses`, or the function's static invalid object. -/
inductive bus_ref where
  | element (index : Nat)
  | s_invalid
  deriving DecidableEq, Repr

/-- A user instrument definition: its name and its controller names. -/
structure userinstrument where
  m_name : String
  m_controllers : List String
  deriving DecidableEq, Repr

/-- Constants defined at the top of `usrsettings.cpp`. -/
def c_window_scale_min : Rat := 1 / 2
def c_window_scale_default : Rat := 1
def c_window_scale_max : Rat := 3
def c_default_window_width : Int := 884
def c_default_window_height : Int := 602
def c_minimum_redraw : Int := 10
def c_maximum_redraw : Int := 100
def c_default_redraw_ms : Int := 40
def c_mainwnd_spacing : Int := 2
def c_progress_box_width : Rat := 8 / 10
def c_progress_box_height : Rat := 4 / 10

/-- The data members of `usrsettings`, in the order of the constructor.
`float` and `double` members hold rationals. -/
structure usrsettings where
  m_midi_buses : List usermidibus
  m_instruments : List userinstrument
  m_option_bits : Nat
  m_mainwnd_rows : Int
  m_mainwnd_cols : Int
  m_window_scale : Rat
  m_window_scale_y : Rat
  m_mainwnd_spacing : Int
  m_current_zoom : Int
  m_global_seq_feature_save : Bool
  m_seqedit_scale : Int
  m_seqedit_key : Int
  m_seqedit_bgsequence : Int
  m_progress_bar_thick : Bool
  m_inverse_colors : Bool
  m_window_redraw_rate_ms : Int
  m_seqchars_x : Int
  m_seqchars_y : Int
  m_default_ppqn : Int
  m_midi_ppqn : Int
  m_use_file_ppqn : Bool
  m_file_ppqn : Int
  m_midi_beats_per_measure : Int
  m_midi_bpm_minimum : Rat
  m_midi_beats_per_minute : Rat
  m_midi_bpm_maximum : Rat
  m_midi_beat_width : Int
  m_midi_buss_override : Int
  m_velocity_override : Int
  m_bpm_precision : Int
  m_bpm_step_increment : Rat
  m_bpm_page_increment : Rat
  m_total_seqs : Int
  m_seqs_in_set : Int
  m_gmute_tracks : Int
  m_max_sequence : Int
  m_mainwnd_x : Int
  m_mainwnd_y : Int
  m_save_user_config : Bool
  m_app_is_headless : Bool
  m_user_option_daemonize : Bool
  m_user_use_logfile : Bool
  m_user_option_logfile : String
  m_user_ui_key_height : Int
  m_user_ui_seqedit_in_tab : Bool
  m_user_ui_style_sheet : String
  m_resume_note_ons : Bool
  m_fingerprint_size : Int
  m_progress_box_width : Rat
  m_progress_box_height : Rat
  m_session_manager : session
  m_session_url : String
  m_in_session : Bool
  m_new_pattern_armed : Bool
  m_new_pattern_thru : Bool
  m_new_pattern_record : Bool
  m_new_pattern_qrecord : Bool
  m_new_pattern_recordstyle : recordstyle

namespace usrsettings

/-- Modelled from the spec: `test_option_bit(b)` is declared in
`usrsettings.hpp`, which is not among the sources; the setters use it to see
whether an option was already given, so it tests the flag `b` in
`m_option_bits`. -/
def test_option_bit (b : Nat) (u : usrsettings) : Bool :=
  (u.m_option_bits &&& b) != 0

/-- Modelled from the spec: `set_option_bit(b)` is declared in
`usrsettings.hpp`, which is not among the sources; it raises the flag `b` in
`m_option_bits` and touches nothing else. -/
def set_option_bit (b : Nat) (u : usrsettings) : usrsettings :=
  { u with m_option_bits := u.m_option_bits ||| b }

/-- `usrsettings::normalize()`. -/
def normalize (K : header_values) (u : usrsettings) : usrsettings :=
  let seqs_in_set := u.m_mainwnd_rows * u.m_mainwnd_cols
  { u with
    m_seqs_in_set := seqs_in_set
    m_gmute_tracks := seqs_in_set * seqs_in_set
    m_total_seqs := seqs_in_set * K.c_max_sets }

/-- `usrsettings::set_defaults()`.  The constant members (`mc_min_zoom`, ...)
and `m_max_sequence`, which it leaves alone, are kept. -/
def set_defaults (K : header_values) (u : usrsettings) : usrsettings :=
  normalize K
    { u with
      m_midi_buses := []
      m_instruments := []
      m_option_bits := K.option_none
      m_mainwnd_rows := K.c_default_rows
      m_mainwnd_cols := K.c_default_columns
      m_window_scale := c_window_scale_default
      m_window_scale_y := c_window_scale_default
      m_mainwnd_spacing := c_mainwnd_spacing
      m_current_zoom := K.SEQ66_DEFAULT_ZOOM
      m_global_seq_feature_save := true
      m_seqedit_scale := K.c_scales_off
      m_seqedit_key := K.c_key_of_C
      m_seqedit_bgsequence := K.seq_limit
      m_progress_bar_thick := true
      m_inverse_colors := false
      m_window_redraw_rate_ms := c_default_redraw_ms
      m_seqchars_x := 15
      m_seqchars_y := 5
      m_default_ppqn := K.SEQ66_DEFAULT_PPQN
      m_midi_ppqn := K.SEQ66_DEFAULT_PPQN
      m_use_file_ppqn := false
      m_file_ppqn := 0
      m_midi_beats_per_measure := K.SEQ66_DEFAULT_BEATS_PER_MEASURE
      m_midi_bpm_minimum := 0
      m_midi_beats_per_minute := K.SEQ66_DEFAULT_BPM
      m_midi_bpm_maximum := K.c_midibyte_value_max
      m_midi_beat_width := K.SEQ66_DEFAULT_BEAT_WIDTH
      m_midi_buss_override := K.null_buss
      m_velocity_override := K.SEQ66_PRESERVE_VELOCITY
      m_bpm_precision := K.SEQ66_DEFAULT_BPM_PRECISION
      m_bpm_step_increment := K.SEQ66_DEFAULT_BPM_STEP_INCREMENT
      m_bpm_page_increment := K.SEQ66_DEFAULT_BPM_PAGE_INCREMENT
      m_mainwnd_x := c_default_window_width
      m_mainwnd_y := c_default_window_height
      m_save_user_config := false
      m_app_is_headless := false
      m_user_option_daemonize := false
      m_user_use_logfile := false
      m_user_option_logfile := ""
      m_user_ui_key_height := K.SEQ66_SEQKEY_HEIGHT_DEFAULT
      m_user_ui_seqedit_in_tab := true
      m_user_ui_style_sheet := ""
      m_resume_note_ons := false
      m_fingerprint_size := 32
      m_progress_box_width := c_progress_box_width
      m_progress_box_height := c_progress_box_height
      m_session_manager := session.none
      m_session_url := ""
      m_in_session := false
      m_new_pattern_armed := false
      m_new_pattern_thru := false
      m_new_pattern_record := false
      m_new_pattern_qrecord := false
      m_new_pattern_recordstyle := recordstyle.merge }

/-- `usrsettings::mainwnd_rows(r)`. -/
def mainwnd_rows (K : header_values) (r : Int) (u : usrsettings) : usrsettings :=
  if K.c_min_rows ≤ r ∧ r ≤ K.c_max_rows then
    if ¬ (u.test_option_bit K.option_rows = true) then
      set_option_bit K.option_rows (normalize K { u with m_mainwnd_rows := r })
    else u
  else u

/-- `usrsettings::default_ppqn(value)`, the setter. -/
def set_default_ppqn (K : header_values) (value : Int) (u : usrsettings) : usrsettings :=
  if K.SEQ66_MINIMUM_PPQN ≤ value ∧ value ≤ K.SEQ66_MAXIMUM_PPQN then
    { u with m_default_ppqn := value }
  else u

/-- `usrsettings::default_ppqn()`, the getter. -/
def default_ppqn (u : usrsettings) : Int := u.m_default_ppqn

/-- `usrsettings::midi_ppqn(value)`. -/
def midi_ppqn (K : header_values) (value : Int) (u : usrsettings) : usrsettings :=
  if ¬ (u.test_option_bit K.option_ppqn = true) then
    let u1 : usrsettings :=
      if K.SEQ66_MINIMUM_PPQN ≤ value ∧ value ≤ K.SEQ66_MAXIMUM_PPQN then
        { u with m_midi_ppqn := value }
      else
        let u2 : usrsettings := if value = 0 then { u with m_use_file_ppqn := true } else u
        if u2.m_use_file_ppqn = true then
          { u2 with m_midi_ppqn := value }
        else
          { u2 with m_midi_ppqn := u2.default_ppqn }
    set_option_bit K.option_ppqn u1
  else u

/-- `usrsettings::midi_beat_width(bw)`. -/
def midi_beat_width (bw : Int) (u : usrsettings) : usrsettings :=
  if bw = 1 ∨ bw = 2 ∨ bw = 4 ∨ bw = 8 ∨ bw = 16 then
    { u with m_midi_beat_width := bw }
  else u

/-- `usrsettings::zoom(value)`.  The constant members `mc_min_zoom` and
`mc_max_zoom` hold `SEQ66_MINIMUM_ZOOM` and `SEQ66_MAXIMUM_ZOOM`. -/
def zoom (K : header_values) (value : Int) (u : usrsettings) : usrsettings :=
  let ok : Bool := decide (K.SEQ66_MINIMUM_ZOOM ≤ value ∧ value ≤ K.SEQ66_MAXIMUM_ZOOM)
  if ok = true ∨ value = K.SEQ66_USE_ZOOM_POWER_OF_2 then
    { u with m_current_zoom := value }
  else u

/-- `usrsettings::progress_box_size(w, h)`. -/
def progress_box_size (w h : Rat) (u : usrsettings) : usrsettings :=
  { u with
    m_progress_box_width := if 0 ≤ w then w else c_progress_box_width
    m_progress_box_height := if 0 ≤ h then h else c_progress_box_height }

/-- Modelled from the spec: `wants_nsm_session()` is declared in
`usrsettings.hpp`, which is not among the sources; it tells whether the
session manager chosen is NSM. -/
def wants_nsm_session (u : usrsettings) : Bool :=
  u.m_session_manager = session.nsm

/-- Modelled from the spec: `wants_lash_session()` is declared in
`usrsettings.hpp`, which is not among the sources; it tells whether the
session manager chosen is LASH. -/
def wants_lash_session (u : usrsettings) : Bool :=
  u.m_session_manager = session.lash

/-- `usrsettings::session_manager_name()`. -/
def session_manager_name (u : usrsettings) : String :=
  if u.wants_nsm_session = true then "nsm"
  else if u.wants_lash_session = true then "lash"
  else "none"

/-- `usrsettings::session_manager(sm)`. -/
def session_manager (K : header_values) (sm : String) (u : usrsettings) : usrsettings :=
  if ¬ (u.test_option_bit K.option_session_mgr = true) then
    let value : session :=
      if sm = "nsm" then session.nsm
      else if sm = "lash" then session.lash
      else session.none
    set_option_bit K.option_session_mgr { u with m_session_manager := value }
  else u

/-- `usrsettings::private_bus(index)`: a reference to the element at `index`
when the index is within the container, to the static invalid object
otherwise. -/
def private_bus (index : Int) (u : usrsettings) : bus_ref :=
  if 0 ≤ index ∧ index < (u.m_midi_buses.length : Int) then bus_ref.element index.toNat
  else bus_ref.s_invalid

/-- The object that a reference returned by `private_bus` designates. -/
def deref (u : usrsettings) : bus_ref → usermidibus
  | bus_ref.element i => u.m_midi_buses.getD i usermidibus.s_invalid
  | bus_ref.s_invalid => usermidibus.s_invalid

/-- `usrsettings::set_bus_instrument(index, channel, instrum)`, with its return
value.  A write through the reference reaches the container only when the
reference designates one of its elements; the message printed on failure is
not part of the state. -/
def set_bus_instrument (index channel instrum : Int) (u : usrsettings) :
    Bool × usrsettings :=
  let mb := u.private_bus index
  let result : Bool := (u.deref mb).is_valid
  if result = true then
    let r := (u.deref mb).set_instrument channel instrum
    match mb with
    | bus_ref.element i => (r.1, { u with m_midi_buses := u.m_midi_buses.set i r.2 })
    | bus_ref.s_invalid => (r.1, u)
  else (false, u)

/-- `usrsettings::window_scale(winscale, winscaley)`, with its return value. -/
def window_scale (K : header_values) (winscale winscaley : Rat) (u : usrsettings) :
    Bool × usrsettings :=
  let result : Bool := decide (c_window_scale_min ≤ winscale ∧ winscale ≤ c_window_scale_max)
  if result = true ∧ ¬ (u.test_option_bit K.option_scale = true) then
    let u1 := set_option_bit K.option_scale { u with m_window_scale := winscale }
    if c_window_scale_min ≤ winscaley ∧ winscaley ≤ c_window_scale_max then
      (result, { u1 with m_window_scale_y := winscaley })
    else
      (result, { u1 with m_window_scale_y := winscale })
  else (result, u)

/-- `usrsettings::option_logfile()`, given what `rc().home_config_directory()`
returns.  Reading the last character of an empty directory string is outside
the string: there the function has no defined result, which is `none`. -/
def option_logfile (home_config_directory : String) (u : usrsettings) : Option String :=
  if ¬ (u.m_user_option_logfile.data = []) then
    if ¬ ('/' ∈ u.m_user_option_logfile.data) then
      match home_config_directory.data.getLast? with
      | none => none
      | some lastchar =>
        let result : String :=
          if lastchar ≠ '/' then home_config_directory ++ "/" else home_config_directory
        some (result ++ u.m_user_option_logfile)
    else some ("" ++ u.m_user_option_logfile)
  else some ""

/-- The members as the default constructor initialises them. -/
def constructed (K : header_values) : usrsettings :=
  { m_midi_buses := []
    m_instruments := []
    m_option_bits := K.option_none
    m_mainwnd_rows := K.c_default_rows
    m_mainwnd_cols := K.c_default_columns
    m_window_scale := c_window_scale_default
    m_window_scale_y := c_window_scale_default
    m_mainwnd_spacing := 0
    m_current_zoom := 0
    m_global_seq_feature_save := true
    m_seqedit_scale := K.c_scales_off
    m_seqedit_key := K.c_key_of_C
    m_seqedit_bgsequence := K.seq_limit
    m_progress_bar_thick := true
    m_inverse_colors := false
    m_window_redraw_rate_ms := c_default_redraw_ms
    m_seqchars_x := 0
    m_seqchars_y := 0
    m_default_ppqn := K.SEQ66_DEFAULT_PPQN
    m_midi_ppqn := K.SEQ66_DEFAULT_PPQN
    m_use_file_ppqn := false
    m_file_ppqn := 0
    m_midi_beats_per_measure := K.SEQ66_DEFAULT_BEATS_PER_MEASURE
    m_midi_bpm_minimum := 0
    m_midi_beats_per_minute := K.SEQ66_DEFAULT_BPM
    m_midi_bpm_maximum := K.c_midibyte_value_max
    m_midi_beat_width := K.SEQ66_DEFAULT_BEAT_WIDTH
    m_midi_buss_override := K.null_buss
    m_velocity_override := K.SEQ66_PRESERVE_VELOCITY
    m_bpm_precision := K.SEQ66_DEFAULT_BPM_PRECISION
    m_bpm_step_increment := K.SEQ66_DEFAULT_BPM_STEP_INCREMENT
    m_bpm_page_increment := K.SEQ66_DEFAULT_BPM_PAGE_INCREMENT
    m_total_seqs := 0
    m_seqs_in_set := 0
    m_gmute_tracks := 0
    m_max_sequence := K.seq_maximum
    m_mainwnd_x := c_default_window_width
    m_mainwnd_y := c_default_window_height
    m_save_user_config := false
    m_app_is_headless := false
    m_user_option_daemonize := false
    m_user_use_logfile := false
    m_user_option_logfile := ""
    m_user_ui_key_height := K.SEQ66_SEQKEY_HEIGHT_DEFAULT
    m_user_ui_seqedit_in_tab := true
    m_user_ui_style_sheet := ""
    m_resume_note_ons := false
    m_fingerprint_size := 32
    m_progress_box_width := c_progress_box_width
    m_progress_box_height := c_progress_box_height
    m_session_manager := session.none
    m_session_url := ""
    m_in_session := false
    m_new_pattern_armed := false
    m_new_pattern_thru := false
    m_new_pattern_record := false
    m_new_pattern_qrecord := false
    m_new_pattern_recordstyle := recordstyle.merge }

end usrsettings

/-- The settings after construction and `set_defaults()`, for the documented
values of the header constants. -/
def default_settings : usrsettings :=
  usrsettings.set_defaults documented_values (usrsettings.constructed documented_values)

/-- The default settings after `progress_box_size(0.5, 0.5)`. -/
def settings_box_half : usrsettings :=
  default_settings.progress_box_size (1 / 2) (1 / 2)

/-- The settings states reached from `set_defaults()` by a sequence of
`window_scale(ws, wsy)` calls, given as the list of their arguments. -/
def after_window_scales (K : header_values) (u : usrsettings)
    (calls : List (Rat × Rat)) : usrsettings :=
  calls.foldl (fun s c => (usrsettings.window_scale K c.1 c.2 s).2) (u.set_defaults K)

/-! ## Song editor: zoom -/

/-- Modelled from the spec: `qperfroll::zoom_in()` is not among the sources.
Section 6: the zoom operations "mutate the Zoom/Snap Calculator's zoom
parameter; must be idempotent at clamped bounds (zooming in at maximum zoom is
a no-op, not an error)".  The parameter is the zoom power of section 3, which
one step raises by one below the maximum. -/
def qperfroll.zoom_in (K : header_values) (r : qperfroll) : qperfroll :=
  if r.m_zoom < K.SEQ66_MAXIMUM_ZOOM then { r with m_zoom := r.m_zoom + 1 } else r

/-- Modelled from the spec: `qperfroll::zoom_out()`, the counterpart of
`zoom_in`: one step lowers the zoom power by one above the minimum, and is a
no-op at the minimum. -/
def qperfroll.zoom_out (K : header_values) (r : qperfroll) : qperfroll :=
  if K.SEQ66_MINIMUM_ZOOM < r.m_zoom then { r with m_zoom := r.m_zoom - 1 } else r

/-- Modelled from the spec: `qperfroll::reset_zoom()` puts the zoom parameter
back to its default. -/
def qperfroll.reset_zoom (K : header_values) (r : qperfroll) : qperfroll :=
  { r with m_zoom := K.SEQ66_DEFAULT_ZOOM }

/-- Modelled from the spec: `qperftime::zoom_in()`, as for the song roll. -/
def qperftime.zoom_in (K : header_values) (t : qperftime) : qperftime :=
  if t.m_zoom < K.SEQ66_MAXIMUM_ZOOM then { t with m_zoom := t.m_zoom + 1 } else t

/-- Modelled from the spec: `qperftime::zoom_out()`, as for the song roll. -/
def qperftime.zoom_out (K : header_values) (t : qperftime) : qperftime :=
  if K.SEQ66_MINIMUM_ZOOM < t.m_zoom then { t with m_zoom := t.m_zoom - 1 } else t

/-- Modelled from the spec: `qperftime::reset_zoom()`, as for the song roll. -/
def qperftime.reset_zoom (K : header_values) (t : qperftime) : qperftime :=
  { t with m_zoom := K.SEQ66_DEFAULT_ZOOM }

/-- `qperfeditframe64::zoom_in()`: the time bar, then the song roll. -/
def qperfeditframe64.zoom_in (K : header_values) (f : qperfeditframe64) : qperfeditframe64 :=
  let f1 := { f with m_perftime := f.m_perftime.zoom_in K }
  { f1 with m_perfroll := f1.m_perfroll.zoom_in K }

/-- `qperfeditframe64::zoom_out()`: the time bar, then the song roll. -/
def qperfeditframe64.zoom_out (K : header_values) (f : qperfeditframe64) : qperfeditframe64 :=
  let f1 := { f with m_perftime := f.m_perftime.zoom_out K }
  { f1 with m_perfroll := f1.m_perfroll.zoom_out K }

/-- `qperfeditframe64::reset_zoom()`: the time bar, then the song roll. -/
def qperfeditframe64.reset_zoom (K : header_values) (f : qperfeditframe64) : qperfeditframe64 :=
  let f1 := { f with m_perftime := f.m_perftime.reset_zoom K }
  { f1 with m_perfroll := f1.m_perfroll.reset_zoom K }

/-! ## The engine of the specification

The trigger timeline, the undo and redo stacks, the tick clock and the playback
resolver belong to the performer, whose sources are not at hand.  They are
modelled from sections 3 and 4 of the specification. -/

/-- Modelled from the spec: a Trigger of section 3, one placement of a pattern
on the timeline. -/
structure Trigger where
  pattern_id : Nat
  start_tick : Int
  end_tick : Int
  offset_tick : Int
  transposed : Int
  deriving DecidableEq, Repr

/-- Modelled from the spec: the Undo/Redo Manager of section 4.4 over the
Trigger Timeline of one pattern slot.  An Undo Record is a snapshot of the
timeline; both stacks have their most recent record first. -/
structure UndoRedo where
  timeline : List Trigger
  undo_stack : List (List Trigger)
  redo_stack : List (List Trigger)
  deriving DecidableEq, Repr

namespace UndoRedo

/-- Modelled from the spec: pushing a record on a stack of bounded depth;
"oldest entries discarded on overflow". -/
def push (depth : Nat) (record : List Trigger) (stack : List (List Trigger)) :
    List (List Trigger) :=
  (record :: stack).take depth

/-- Modelled from the spec: a mutation of the timeline.  The Undo Record is
pushed before the mutation is applied, and "a new mutation issued after one or
more `undo()` calls clears the redo stack". -/
def mutate (depth : Nat) (mutation : List Trigger → List Trigger) (s : UndoRedo) :
    UndoRedo :=
  { timeline := mutation s.timeline
    undo_stack := push depth s.timeline s.undo_stack
    redo_stack := [] }

/-- Modelled from the spec: "`undo()` pops the most recent record and applies
its inverse to the Trigger Timeline, then pushes the inverse onto a redo
stack"; with nothing to pop it is a no-op. -/
def undo (depth : Nat) (s : UndoRedo) : UndoRedo :=
  match s.undo_stack with
  | [] => s
  | record :: rest =>
    { timeline := record
      undo_stack := rest
      redo_stack := push depth s.timeline s.redo_stack }

/-- Modelled from the spec: "`redo()` is symmetric". -/
def redo (depth : Nat) (s : UndoRedo) : UndoRedo :=
  match s.redo_stack with
  | [] => s
  | record :: rest =>
    { timeline := record
      undo_stack := push depth s.timeline s.undo_stack
      redo_stack := rest }

end UndoRedo

/-- Modelled from the spec: the error of the Tick Clock, section 7. -/
inductive ClockError where
  | InvalidLoopBounds
  deriving DecidableEq, Repr

/-- Modelled from the spec: the Tick Clock of section 4.1 with the loop state
of the Transport State of section 3. -/
structure TickClock where
  now : Int
  loop_enabled : Bool
  loop_start : Int
  loop_end : Int
  deriving DecidableEq, Repr

/-- Modelled from the spec: `advance(delta_ticks)`.  "When `loop_enabled` and
`now() >= loop_end`, the clock wraps: `now() = loop_start + (now() -
loop_end)`"; it "fails (signals `ClockError::InvalidLoopBounds`) if
`loop_start >= loop_end` at the moment wrapping is attempted". -/
def TickClock.advance (delta_ticks : Int) (c : TickClock) : Except ClockError TickClock :=
  let t : Int := c.now + delta_ticks
  if c.loop_enabled = true ∧ c.loop_end ≤ t then
    if c.loop_end ≤ c.loop_start then Except.error ClockError.InvalidLoopBounds
    else Except.ok { c with now := c.loop_start + (t - c.loop_end) }
  else Except.ok { c with now := t }

/-- Modelled from the spec: a trigger is active at `now` when its half-open
span `[start_tick, end_tick)` contains `now`. -/
def Trigger.active (now : Int) (t : Trigger) : Bool :=
  decide (t.start_tick ≤ now ∧ now < t.end_tick)

/-- Modelled from the spec: the pattern-local play position of section 4.3,
`(now - trigger.start_tick + trigger.offset_tick) mod pattern.loop_length`. -/
def play_position (loop_length : Int) (now : Int) (t : Trigger) : Int :=
  (now - t.start_tick + t.offset_tick) % loop_length

/-- Modelled from the spec: the Playback Resolver of section 4.3 for one
pattern slot: "the latest one whose `[start_tick, end_tick)` contains `now`",
with its play position, or nothing (the pattern is muted).  The loop length of
a pattern is looked up by its identifier. -/
def resolve (loop_length : Nat → Int) (timeline : List Trigger) (now : Int) :
    Option (Trigger × Int) :=
  match timeline.reverse.find? (Trigger.active now) with
  | none => none
  | some t => some (t, play_position (loop_length t.pattern_id) now t)

end seq66

namespace seq66

/-! ## Song editor: guides -/

/-- C1. For every PPQN and beats per measure, and every positive beat width and
snap, `set_guides` hands the song roll and the time bar the measure length
`(ppqn * 4 * beats_per_measure) / beat_width` and the snap length
`measure_ticks / snap` (truncating divisions), and hands the song roll the
beat length `(ppqn * 4) / beat_width`. -/
theorem set_guides_hands_ticks (f : qperfeditframe64)
    (hbw : 0 < f.m_beat_width) (hsnap : 0 < f.m_snap) :
    (f.set_guides).m_perfroll.m_measure_length
        = Int.tdiv (f.m_mainperf.ppqn * 4 * f.m_beats_per_measure) f.m_beat_width ∧
    (f.set_guides).m_perftime.m_measure_length
        = Int.tdiv (f.m_mainperf.ppqn * 4 * f.m_beats_per_measure) f.m_beat_width ∧
    (f.set_guides).m_perfroll.m_snap
        = Int.tdiv (Int.tdiv (f.m_mainperf.ppqn * 4 * f.m_beats_per_measure) f.m_beat_width)
            f.m_snap ∧
    (f.set_guides).m_perftime.m_snap
        = Int.tdiv (Int.tdiv (f.m_mainperf.ppqn * 4 * f.m_beats_per_measure) f.m_beat_width)
            f.m_snap ∧
    (f.set_guides).m_perfroll.m_beat_length
        = Int.tdiv (f.m_mainperf.ppqn * 4) f.m_beat_width := by
  have hguard : 0 < f.m_beat_width ∧ 0 < f.m_snap := ⟨hbw, hsnap⟩
  simp [qperfeditframe64.set_guides, hguard, qperfroll.set_guides, qperftime.set_guides]

/-- C1 at the frame of a 192 PPQN performer as constructed (snap 8, 4/4):
measure 768, snap 96, beat 192. -/
theorem set_guides_hands_ticks_witness :
    (0 < (new_frame 192).m_beat_width ∧ 0 < (new_frame 192).m_snap) ∧
    ((new_frame 192).set_guides).m_perfroll.m_measure_length = 768 ∧
    ((new_frame 192).set_guides).m_perftime.m_measure_length = 768 ∧
    ((new_frame 192).set_guides).m_perfroll.m_snap = 96 ∧
    ((new_frame 192).set_guides).m_perftime.m_snap = 96 ∧
    ((new_frame 192).set_guides).m_perfroll.m_beat_length = 192 :=
  ⟨by decide, set_guides_hands_ticks (new_frame 192) (by decide) (by decide)⟩

/-- C2. With PPQN 192, four beats per measure, beat width 4 and snap divisor
16, `set_guides` yields a measure of 768 ticks and a snap unit of 48 ticks for
both panels, and snapping tick 100 to that unit gives 96. -/
theorem guides_192_4_4_16 :
    (qperfeditframe64.set_guides
      { new_frame 192 with m_beats_per_measure := 4, m_beat_width := 4, m_snap := 16 }
      ).m_perfroll.m_measure_length = 768 ∧
    (qperfeditframe64.set_guides
      { new_frame 192 with m_beats_per_measure := 4, m_beat_width := 4, m_snap := 16 }
      ).m_perftime.m_measure_length = 768 ∧
    (qperfeditframe64.set_guides
      { new_frame 192 with m_beats_per_measure := 4, m_beat_width := 4, m_snap := 16 }
      ).m_perfroll.m_snap = 48 ∧
    (qperfeditframe64.set_guides
      { new_frame 192 with m_beats_per_measure := 4, m_beat_width := 4, m_snap := 16 }
      ).m_perftime.m_snap = 48 ∧
    snap_tick 100
      (qperfeditframe64.set_guides
        { new_frame 192 with m_beats_per_measure := 4, m_beat_width := 4, m_snap := 16 }
        ).m_perfroll.m_snap = 96 := by
  decide

/-! ## Song editor: calls on the performer -/

/-- What a frame has recorded beyond an earlier record, when the later record
extends the earlier one. -/
theorem issued_append (f g : qperfeditframe64) (cs : List perf_call)
    (h : g.m_mainperf.m_calls = f.m_mainperf.m_calls ++ cs) :
    qperfeditframe64.issued f g = cs := by
  simp [qperfeditframe64.issued, h]

/-- C3. For every transpose value `n`, `set_transpose n` issues exactly two
calls on the performer: `all_notes_off` first, then `set_transpose n` with the
same `n`; each is issued once, and nothing else of the frame changes. -/
theorem set_transpose_notes_off_first (n : Int) (f : qperfeditframe64) :
    (f.set_transpose n).m_mainperf.m_calls
        = f.m_mainperf.m_calls ++ [perf_call.all_notes_off, perf_call.set_transpose n] ∧
    qperfeditframe64.issued f (f.set_transpose n)
        = [perf_call.all_notes_off, perf_call.set_transpose n] ∧
    (qperfeditframe64.issued f (f.set_transpose n)).count perf_call.all_notes_off = 1 ∧
    (qperfeditframe64.issued f (f.set_transpose n)).count (perf_call.set_transpose n) = 1 ∧
    (∀ m : Int, perf_call.set_transpose m ∈ qperfeditframe64.issued f (f.set_transpose n)
        → m = n) ∧
    f.set_transpose n
        = { f with m_mainperf :=
              { f.m_mainperf with
                m_calls := f.m_mainperf.m_calls
                  ++ [perf_call.all_notes_off, perf_call.set_transpose n] } } := by
  have hcalls : (f.set_transpose n).m_mainperf.m_calls
      = f.m_mainperf.m_calls ++ [perf_call.all_notes_off, perf_call.set_transpose n] := by
    simp [qperfeditframe64.set_transpose, performer.all_notes_off, performer.set_transpose,
      performer.receive]
  have hiss := issued_append f (f.set_transpose n) _ hcalls
  refine ⟨hcalls, hiss, ?_, ?_, ?_, ?_⟩
  · rw [hiss]; simp
  · rw [hiss]; simp
  · intro m hm
    rw [hiss] at hm
    simpa using hm
  · simp [qperfeditframe64.set_transpose, performer.all_notes_off, performer.set_transpose,
      performer.receive]

/-- In a record of two calls that starts with `push_trigger_undo` and whose
second call is another one, the push occurs once and every call that changes
the triggers has the push before it. -/
theorem push_first_of_two (m : perf_call) (hm : m ≠ perf_call.push_trigger_undo) :
    [perf_call.push_trigger_undo, m].count perf_call.push_trigger_undo = 1 ∧
    ∀ (pre : List perf_call) (c : perf_call) (post : List perf_call),
      [perf_call.push_trigger_undo, m] = pre ++ c :: post →
      c.mutates_triggers = true → perf_call.push_trigger_undo ∈ pre := by
  constructor
  · have hne : ¬ (m = perf_call.push_trigger_undo) := hm
    simp [List.count_cons, hne]
  · intro pre c post h hc
    rcases pre with _ | ⟨a, pre⟩
    · simp at h
      rcases h with ⟨h1, _⟩
      rw [← h1] at hc
      simp [perf_call.mutates_triggers] at hc
    · simp at h
      simp [h.1]

/-- The calls recorded by the three marker operations. -/
theorem marker_calls (f : qperfeditframe64) :
    qperfeditframe64.issued f f.markerCollapse
        = [perf_call.push_trigger_undo, perf_call.move_triggers false] ∧
    qperfeditframe64.issued f f.markerExpand
        = [perf_call.push_trigger_undo, perf_call.move_triggers true] ∧
    qperfeditframe64.issued f f.markerExpandCopy
        = [perf_call.push_trigger_undo, perf_call.copy_triggers] := by
  refine ⟨?_, ?_, ?_⟩ <;>
    simp [qperfeditframe64.issued, qperfeditframe64.markerCollapse,
      qperfeditframe64.markerExpand, qperfeditframe64.markerExpandCopy,
      performer.push_trigger_undo, performer.move_triggers, performer.copy_triggers,
      performer.receive]

/-- C4. Each of `markerCollapse`, `markerExpand` and `markerExpandCopy` issues
`push_trigger_undo` exactly once, and every call that changes the triggers is
preceded, among the calls of that operation, by the push; each operation does
issue such a call. -/
theorem marker_edits_push_undo_first (f : qperfeditframe64) :
    (((qperfeditframe64.issued f f.markerCollapse).count perf_call.push_trigger_undo = 1 ∧
      (∃ c ∈ qperfeditframe64.issued f f.markerCollapse, c.mutates_triggers = true) ∧
      ∀ (pre : List perf_call) (c : perf_call) (post : List perf_call),
        qperfeditframe64.issued f f.markerCollapse = pre ++ c :: post →
        c.mutates_triggers = true → perf_call.push_trigger_undo ∈ pre) ∧
     ((qperfeditframe64.issued f f.markerExpand).count perf_call.push_trigger_undo = 1 ∧
      (∃ c ∈ qperfeditframe64.issued f f.markerExpand, c.mutates_triggers = true) ∧
      ∀ (pre : List perf_call) (c : perf_call) (post : List perf_call),
        qperfeditframe64.issued f f.markerExpand = pre ++ c :: post →
        c.mutates_triggers = true → perf_call.push_trigger_undo ∈ pre) ∧
     ((qperfeditframe64.issued f f.markerExpandCopy).count perf_call.push_trigger_undo = 1 ∧
      (∃ c ∈ qperfeditframe64.issued f f.markerExpandCopy, c.mutates_triggers = true) ∧
      ∀ (pre : List perf_call) (c : perf_call) (post : List perf_call),
        qperfeditframe64.issued f f.markerExpandCopy = pre ++ c :: post →
        c.mutates_triggers = true → perf_call.push_trigger_undo ∈ pre)) := by
  obtain ⟨h1, h2, h3⟩ := marker_calls f
  rw [h1, h2, h3]
  refine ⟨⟨?_, ?_, ?_⟩, ⟨?_, ?_, ?_⟩, ⟨?_, ?_, ?_⟩⟩
  · exact (push_first_of_two _ (by simp)).1
  · exact ⟨perf_call.move_triggers false, by simp, rfl⟩
  · exact (push_first_of_two _ (by simp)).2
  · exact (push_first_of_two _ (by simp)).1
  · exact ⟨perf_call.move_triggers true, by simp, rfl⟩
  · exact (push_first_of_two _ (by simp)).2
  · exact (push_first_of_two _ (by simp)).1
  · exact ⟨perf_call.copy_triggers, by simp, rfl⟩
  · exact (push_first_of_two _ (by simp)).2

/-- C5. The marker operations map one-to-one onto the performer operations:
the only call of `markerCollapse` that changes the triggers is
`move_triggers(false)`, that of `markerExpand` is `move_triggers(true)`, that
of `markerExpandCopy` is `copy_triggers()`; the three calls differ, and the
only other call each operation issues is `push_trigger_undo`. -/
theorem marker_ops_map_to_engine (f : qperfeditframe64) :
    ((qperfeditframe64.issued f f.markerCollapse).filter perf_call.mutates_triggers
        = [perf_call.move_triggers false] ∧
     (qperfeditframe64.issued f f.markerExpand).filter perf_call.mutates_triggers
        = [perf_call.move_triggers true] ∧
     (qperfeditframe64.issued f f.markerExpandCopy).filter perf_call.mutates_triggers
        = [perf_call.copy_triggers]) ∧
    (f.markerCollapse.m_mainperf.m_calls
        = f.m_mainperf.m_calls ++ [perf_call.push_trigger_undo, perf_call.move_triggers false] ∧
     f.markerExpand.m_mainperf.m_calls
        = f.m_mainperf.m_calls ++ [perf_call.push_trigger_undo, perf_call.move_triggers true] ∧
     f.markerExpandCopy.m_mainperf.m_calls
        = f.m_mainperf.m_calls ++ [perf_call.push_trigger_undo, perf_call.copy_triggers]) ∧
    (perf_call.move_triggers false ≠ perf_call.move_triggers true ∧
     perf_call.move_triggers false ≠ perf_call.copy_triggers ∧
     perf_call.move_triggers true ≠ perf_call.copy_triggers) := by
  obtain ⟨h1, h2, h3⟩ := marker_calls f
  rw [h1, h2, h3]
  refine ⟨⟨by decide, by decide, by decide⟩, ⟨?_, ?_, ?_⟩, ⟨by decide, by decide, by decide⟩⟩ <;>
    simp [qperfeditframe64.markerCollapse,
      qperfeditframe64.markerExpand, qperfeditframe64.markerExpandCopy,
      performer.push_trigger_undo, performer.move_triggers, performer.copy_triggers,
      performer.receive]

/-! ## Song editor: changing the snap -/

/-- `set_guides` leaves the members of the frame itself alone. -/
theorem set_guides_members (f : qperfeditframe64) :
    f.set_guides.m_snap = f.m_snap ∧ f.set_guides.m_beat_width = f.m_beat_width ∧
    f.set_guides.m_beats_per_measure = f.m_beats_per_measure ∧
    f.set_guides.m_mainperf = f.m_mainperf := by
  unfold qperfeditframe64.set_guides
  split <;> simp

/-- C7. For every snap index from 0 to 5, `updateGridSnap` stores the divisor
2 to the power of the index, one of 1, 2, 4, 8, 16, 32; and whatever `power`
computes, the divisor stored is never 0: a computed 0 is replaced by 16, any
other value is stored as it is. -/
theorem updateGridSnap_divisor (idx : Int) (f : qperfeditframe64)
    (h0 : 0 ≤ idx) (h5 : idx ≤ 5) :
    (f.updateGridSnap idx).m_snap = 2 ^ idx.toNat ∧
    (f.updateGridSnap idx).m_snap ∈ [(1 : Int), 2, 4, 8, 16, 32] ∧
    (∀ (pw : Int → Int → Int) (j : Int),
      (qperfeditframe64.updateGridSnapWith pw j f).m_snap ≠ 0 ∧
      (pw 2 j = 0 → (qperfeditframe64.updateGridSnapWith pw j f).m_snap = 16) ∧
      (pw 2 j ≠ 0 → (qperfeditframe64.updateGridSnapWith pw j f).m_snap = pw 2 j)) := by
  have hstored : ∀ (pw : Int → Int → Int) (j : Int),
      (qperfeditframe64.updateGridSnapWith pw j f).m_snap
        = (if pw 2 j = 0 then (16 : Int) else pw 2 j) := by
    intro pw j
    unfold qperfeditframe64.updateGridSnapWith
    exact (set_guides_members _).1
  have hval : (f.updateGridSnap idx).m_snap = 2 ^ idx.toNat := by
    unfold qperfeditframe64.updateGridSnap
    rw [hstored]
    have hneg : ¬ idx < 0 := by omega
    have hpow : (2 : Int) ^ idx.toNat ≠ 0 := by positivity
    simp [power, hneg, hpow]
  refine ⟨hval, ?_, ?_⟩
  · rw [hval]
    have hcases : idx = 0 ∨ idx = 1 ∨ idx = 2 ∨ idx = 3 ∨ idx = 4 ∨ idx = 5 := by omega
    rcases hcases with h | h | h | h | h | h <;> subst h <;> decide
  · intro pw j
    rw [hstored]
    refine ⟨?_, ?_, ?_⟩
    · split
      · decide
      · assumption
    · intro h; simp [h]
    · intro h; simp [h]

/-- C7 at index 4 on the constructed frame: the divisor stored is 16. -/
theorem updateGridSnap_divisor_witness :
    ((0 : Int) ≤ 4 ∧ (4 : Int) ≤ 5) ∧
    ((new_frame 192).updateGridSnap 4).m_snap = 2 ^ (4 : Int).toNat :=
  ⟨by decide, (updateGridSnap_divisor 4 (new_frame 192) (by decide) (by decide)).1⟩

/-! ## User settings: beat width -/

/-- The powers of 2 from 1 to 16 are 1, 2, 4, 8 and 16. -/
theorem power_of_two_upto_16 (bw : Int) :
    ((∃ k : Nat, bw = 2 ^ k) ∧ 1 ≤ bw ∧ bw ≤ 16) ↔
      (bw = 1 ∨ bw = 2 ∨ bw = 4 ∨ bw = 8 ∨ bw = 16) := by
  constructor
  · rintro ⟨⟨k, hk⟩, _, h16⟩
    have hk4 : k ≤ 4 := by
      by_contra hcon
      have h5 : 5 ≤ k := by omega
      have hpow : (2 : Int) ^ 5 ≤ 2 ^ k := pow_le_pow_right₀ (by norm_num) h5
      rw [← hk] at hpow
      norm_num at hpow
      omega
    interval_cases k <;> norm_num at hk <;> omega
  · rintro (h | h | h | h | h) <;> subst h
    · exact ⟨⟨0, by norm_num⟩, by norm_num, by norm_num⟩
    · exact ⟨⟨1, by norm_num⟩, by norm_num, by norm_num⟩
    · exact ⟨⟨2, by norm_num⟩, by norm_num, by norm_num⟩
    · exact ⟨⟨3, by norm_num⟩, by norm_num, by norm_num⟩
    · exact ⟨⟨4, by norm_num⟩, by norm_num, by norm_num⟩

/-- One call of `midi_beat_width` keeps a positive beat width positive. -/
theorem midi_beat_width_pos (bw : Int) (u : usrsettings)
    (h : 0 < u.m_midi_beat_width) : 0 < (u.midi_beat_width bw).m_midi_beat_width := by
  unfold usrsettings.midi_beat_width
  split
  · rename_i hv
    simp
    omega
  · exact h

/-- C8. `midi_beat_width(bw)` stores `bw` exactly when `bw` is a power of 2 from
1 to 16, that is 1, 2, 4, 8 or 16, and then changes nothing else; for every
other `bw` the whole settings state is unchanged.  Hence a positive stored beat
width stays positive under any sequence of calls. -/
theorem midi_beat_width_stores_powers_of_two (bw : Int) (u : usrsettings) :
    ((((∃ k : Nat, bw = 2 ^ k) ∧ 1 ≤ bw ∧ bw ≤ 16) ↔
        (bw = 1 ∨ bw = 2 ∨ bw = 4 ∨ bw = 8 ∨ bw = 16))) ∧
    (((∃ k : Nat, bw = 2 ^ k) ∧ 1 ≤ bw ∧ bw ≤ 16) →
        u.midi_beat_width bw = { u with m_midi_beat_width := bw }) ∧
    (¬ ((∃ k : Nat, bw = 2 ^ k) ∧ 1 ≤ bw ∧ bw ≤ 16) → u.midi_beat_width bw = u) ∧
    (0 < u.m_midi_beat_width →
      ∀ bws : List Int,
        0 < (bws.foldl (fun s b => usrsettings.midi_beat_width b s) u).m_midi_beat_width) := by
  refine ⟨power_of_two_upto_16 bw, ?_, ?_, ?_⟩
  · intro h
    have hv := (power_of_two_upto_16 bw).1 h
    simp [usrsettings.midi_beat_width, hv]
  · intro h
    have hv : ¬ (bw = 1 ∨ bw = 2 ∨ bw = 4 ∨ bw = 8 ∨ bw = 16) :=
      fun hc => h ((power_of_two_upto_16 bw).2 hc)
    simp [usrsettings.midi_beat_width, hv]
  · intro hpos bws
    induction bws generalizing u with
    | nil => simpa using hpos
    | cons b rest ih =>
      simp only [List.foldl_cons]
      exact ih (usrsettings.midi_beat_width b u) (midi_beat_width_pos b u hpos)

/-- C8 on the default settings: 8 is stored, 3 changes nothing, and the beat
width is positive after the calls 3, 8, 0, 16. -/
theorem midi_beat_width_stores_powers_of_two_witness :
    (default_settings.midi_beat_width 8).m_midi_beat_width = 8 ∧
    default_settings.midi_beat_width 3 = default_settings ∧
    0 < (([3, 8, 0, 16] : List Int).foldl
          (fun s b => usrsettings.midi_beat_width b s) default_settings).m_midi_beat_width :=
  ⟨congrArg usrsettings.m_midi_beat_width
      ((midi_beat_width_stores_powers_of_two 8 default_settings).2.1
        ⟨⟨3, by norm_num⟩, by norm_num, by norm_num⟩),
   (midi_beat_width_stores_powers_of_two 3 default_settings).2.2.1
      (fun h => by
        have h3 := (midi_beat_width_stores_powers_of_two 3 default_settings).1.1 h
        omega),
   (midi_beat_width_stores_powers_of_two 3 default_settings).2.2.2 (by decide) [3, 8, 0, 16]⟩

/-! ## User settings: PPQN -/

/-- The default PPQN is within the PPQN range after `set_defaults()`, when the
default of the headers is; `default_ppqn(value)` keeps it so, and neither
`midi_ppqn`, `mainwnd_rows` nor `midi_beat_width` writes it. -/
theorem default_ppqn_in_range (K : header_values)
    (hK : K.SEQ66_MINIMUM_PPQN ≤ K.SEQ66_DEFAULT_PPQN ∧
      K.SEQ66_DEFAULT_PPQN ≤ K.SEQ66_MAXIMUM_PPQN) (u : usrsettings) :
    (K.SEQ66_MINIMUM_PPQN ≤ (u.set_defaults K).m_default_ppqn ∧
      (u.set_defaults K).m_default_ppqn ≤ K.SEQ66_MAXIMUM_PPQN) ∧
    ((K.SEQ66_MINIMUM_PPQN ≤ u.m_default_ppqn ∧ u.m_default_ppqn ≤ K.SEQ66_MAXIMUM_PPQN) →
      ∀ value : Int,
        (K.SEQ66_MINIMUM_PPQN ≤ (u.set_default_ppqn K value).m_default_ppqn ∧
          (u.set_default_ppqn K value).m_default_ppqn ≤ K.SEQ66_MAXIMUM_PPQN) ∧
        (u.midi_ppqn K value).m_default_ppqn = u.m_default_ppqn ∧
        (u.mainwnd_rows K value).m_default_ppqn = u.m_default_ppqn ∧
        (u.midi_beat_width value).m_default_ppqn = u.m_default_ppqn) := by
  refine ⟨by simpa [usrsettings.set_defaults, usrsettings.normalize] using hK, ?_⟩
  intro hu value
  refine ⟨?_, ?_, ?_, ?_⟩
  · unfold usrsettings.set_default_ppqn
    split
    · rename_i hv
      simpa using hv
    · exact hu
  · unfold usrsettings.midi_ppqn
    split
    · simp only [usrsettings.set_option_bit]
      split
      · rfl
      · split <;> split <;> rfl
    · rfl
  · unfold usrsettings.mainwnd_rows
    split
    · split
      · rfl
      · rfl
    · rfl
  · unfold usrsettings.midi_beat_width
    split <;> rfl

/-- C9. On a settings state whose PPQN option bit is clear, `midi_ppqn(v)`
stores `v` when `v` is within the PPQN range.  For `v` out of range it stores
`v` as given if file-PPQN is in use, which `v = 0` itself switches on, and
otherwise stores the default PPQN.  Hence, the default PPQN being within the
range, the stored PPQN is within the range whenever file-PPQN is not in use
after the call. -/
theorem midi_ppqn_stores (K : header_values) (v : Int) (u : usrsettings)
    (hbit : u.test_option_bit K.option_ppqn = false) :
    ((K.SEQ66_MINIMUM_PPQN ≤ v ∧ v ≤ K.SEQ66_MAXIMUM_PPQN) →
      (u.midi_ppqn K v).m_midi_ppqn = v ∧
      (u.midi_ppqn K v).m_use_file_ppqn = u.m_use_file_ppqn) ∧
    (¬ (K.SEQ66_MINIMUM_PPQN ≤ v ∧ v ≤ K.SEQ66_MAXIMUM_PPQN) →
      (v = 0 ∨ u.m_use_file_ppqn = true) →
      (u.midi_ppqn K v).m_midi_ppqn = v ∧ (u.midi_ppqn K v).m_use_file_ppqn = true) ∧
    (¬ (K.SEQ66_MINIMUM_PPQN ≤ v ∧ v ≤ K.SEQ66_MAXIMUM_PPQN) →
      v ≠ 0 → u.m_use_file_ppqn = false →
      (u.midi_ppqn K v).m_midi_ppqn = u.default_ppqn ∧
      (u.midi_ppqn K v).m_use_file_ppqn = false) ∧
    ((K.SEQ66_MINIMUM_PPQN ≤ u.m_default_ppqn ∧ u.m_default_ppqn ≤ K.SEQ66_MAXIMUM_PPQN) →
      (u.midi_ppqn K v).m_use_file_ppqn = false →
      K.SEQ66_MINIMUM_PPQN ≤ (u.midi_ppqn K v).m_midi_ppqn ∧
      (u.midi_ppqn K v).m_midi_ppqn ≤ K.SEQ66_MAXIMUM_PPQN) := by
  have hb : ¬ (u.test_option_bit K.option_ppqn = true) := by simp [hbit]
  have hin : (K.SEQ66_MINIMUM_PPQN ≤ v ∧ v ≤ K.SEQ66_MAXIMUM_PPQN) →
      (u.midi_ppqn K v).m_midi_ppqn = v ∧
      (u.midi_ppqn K v).m_use_file_ppqn = u.m_use_file_ppqn := by
    intro hr
    simp [usrsettings.midi_ppqn, hb, hr, usrsettings.set_option_bit]
  have hfile : ¬ (K.SEQ66_MINIMUM_PPQN ≤ v ∧ v ≤ K.SEQ66_MAXIMUM_PPQN) →
      (v = 0 ∨ u.m_use_file_ppqn = true) →
      (u.midi_ppqn K v).m_midi_ppqn = v ∧ (u.midi_ppqn K v).m_use_file_ppqn = true := by
    intro hr hf
    by_cases hz : v = 0
    · subst hz
      simp [usrsettings.midi_ppqn, hb, hr, usrsettings.set_option_bit]
    · have hu : u.m_use_file_ppqn = true := by
        rcases hf with h | h
        · exact absurd h hz
        · exact h
      simp [usrsettings.midi_ppqn, hb, hr, hz, hu, usrsettings.set_option_bit]
  have hdef : ¬ (K.SEQ66_MINIMUM_PPQN ≤ v ∧ v ≤ K.SEQ66_MAXIMUM_PPQN) →
      v ≠ 0 → u.m_use_file_ppqn = false →
      (u.midi_ppqn K v).m_midi_ppqn = u.default_ppqn ∧
      (u.midi_ppqn K v).m_use_file_ppqn = false := by
    intro hr hz hu
    simp [usrsettings.midi_ppqn, hb, hr, hz, hu, usrsettings.set_option_bit,
      usrsettings.default_ppqn]
  refine ⟨hin, hfile, hdef, ?_⟩
  intro hd hoff
  by_cases hr : K.SEQ66_MINIMUM_PPQN ≤ v ∧ v ≤ K.SEQ66_MAXIMUM_PPQN
  · rw [(hin hr).1]
    exact hr
  · by_cases hf : v = 0 ∨ u.m_use_file_ppqn = true
    · rw [(hfile hr hf).2] at hoff
      exact absurd hoff (by decide)
    · have hz : v ≠ 0 := fun h => hf (Or.inl h)
      have hu : u.m_use_file_ppqn = false := by
        cases hcase : u.m_use_file_ppqn
        · rfl
        · exact absurd (Or.inr hcase) hf
      rw [(hdef hr hz hu).1]
      exact hd

/-- C9 on the default settings with the documented range 32 to 19200: the
value 5 is replaced by the default 192, and file-PPQN stays off. -/
theorem midi_ppqn_stores_witness :
    default_settings.test_option_bit documented_values.option_ppqn = false ∧
    (default_settings.midi_ppqn documented_values 5).m_midi_ppqn = 192 ∧
    (default_settings.midi_ppqn documented_values 5).m_use_file_ppqn = false :=
  ⟨by decide,
   (midi_ppqn_stores documented_values 5 default_settings (by decide)).2.2.1
     (by decide) (by decide) (by decide)⟩

/-! ## User settings: rows of the main window -/

/-- C10. `mainwnd_rows(r)` leaves the whole settings state, option bits
included, unchanged for every `r` outside the range of row counts, so that a
later call behaves as it would have on the original state; the row count
changes only for `r` within the range.  For `r` within the range on a state
whose rows option bit is clear, the row count becomes `r`, and the dependent
values are recalculated from it: sequences in a set, group-mute tracks and
total sequences. -/
theorem mainwnd_rows_guarded (K : header_values) (r : Int) (u : usrsettings) :
    (¬ (K.c_min_rows ≤ r ∧ r ≤ K.c_max_rows) →
      u.mainwnd_rows K r = u ∧
      ∀ r2 : Int, (u.mainwnd_rows K r).mainwnd_rows K r2 = u.mainwnd_rows K r2) ∧
    ((u.mainwnd_rows K r).m_mainwnd_rows ≠ u.m_mainwnd_rows →
      K.c_min_rows ≤ r ∧ r ≤ K.c_max_rows) ∧
    ((K.c_min_rows ≤ r ∧ r ≤ K.c_max_rows) → u.test_option_bit K.option_rows = false →
      (u.mainwnd_rows K r).m_mainwnd_rows = r ∧
      (u.mainwnd_rows K r).m_seqs_in_set = r * u.m_mainwnd_cols ∧
      (u.mainwnd_rows K r).m_gmute_tracks = (r * u.m_mainwnd_cols) * (r * u.m_mainwnd_cols) ∧
      (u.mainwnd_rows K r).m_total_seqs = (r * u.m_mainwnd_cols) * K.c_max_sets ∧
      (u.mainwnd_rows K r).m_option_bits = u.m_option_bits ||| K.option_rows ∧
      u.mainwnd_rows K r
        = usrsettings.set_option_bit K.option_rows
            (usrsettings.normalize K { u with m_mainwnd_rows := r })) := by
  have hout : ¬ (K.c_min_rows ≤ r ∧ r ≤ K.c_max_rows) → u.mainwnd_rows K r = u := by
    intro hr
    simp [usrsettings.mainwnd_rows, hr]
  refine ⟨?_, ?_, ?_⟩
  · intro hr
    refine ⟨hout hr, ?_⟩
    intro r2
    rw [hout hr]
  · intro hne
    by_contra hr
    exact hne (by rw [hout hr])
  · intro hr hbit
    have hb : ¬ (u.test_option_bit K.option_rows = true) := by simp [hbit]
    simp [usrsettings.mainwnd_rows, hr, hb, usrsettings.set_option_bit,
      usrsettings.normalize]

/-- C10 on the default settings with the documented range 4 to 8: 9 rows
change nothing, and 6 rows afterwards give 48 sequences in a set. -/
theorem mainwnd_rows_guarded_witness :
    default_settings.mainwnd_rows documented_values 9 = default_settings ∧
    ((default_settings.mainwnd_rows documented_values 9).mainwnd_rows documented_values 6
      ).m_mainwnd_rows = 6 ∧
    (default_settings.mainwnd_rows documented_values 6).m_seqs_in_set = 6 * 8 :=
  ⟨((mainwnd_rows_guarded documented_values 9 default_settings).1 (by decide)).1,
   (by
     rw [((mainwnd_rows_guarded documented_values 9 default_settings).1 (by decide)).2 6]
     exact ((mainwnd_rows_guarded documented_values 6 default_settings).2.2
       (by decide) (by decide)).1),
   ((mainwnd_rows_guarded documented_values 6 default_settings).2.2
      (by decide) (by decide)).2.1⟩

/-! ## User settings: zoom -/

/-- C11. `zoom(v)` sets the current zoom to `v`, and nothing else, exactly when
`v` lies between the minimum and the maximum zoom inclusive or `v` is the
special value of `SEQ66_USE_ZOOM_POWER_OF_2`; for every other `v` the settings
are unchanged.  Setting the same value twice is the same as setting it once.
With the documented values (1, 512 and the special value 0), `zoom(0)` stores
0. -/
theorem zoom_sets_within_range (K : header_values) (v : Int) (u : usrsettings) :
    (((K.SEQ66_MINIMUM_ZOOM ≤ v ∧ v ≤ K.SEQ66_MAXIMUM_ZOOM) ∨
        v = K.SEQ66_USE_ZOOM_POWER_OF_2) →
      u.zoom K v = { u with m_current_zoom := v }) ∧
    (¬ ((K.SEQ66_MINIMUM_ZOOM ≤ v ∧ v ≤ K.SEQ66_MAXIMUM_ZOOM) ∨
        v = K.SEQ66_USE_ZOOM_POWER_OF_2) →
      u.zoom K v = u) ∧
    ((u.zoom K v).m_current_zoom = v ↔
      ((K.SEQ66_MINIMUM_ZOOM ≤ v ∧ v ≤ K.SEQ66_MAXIMUM_ZOOM) ∨
        v = K.SEQ66_USE_ZOOM_POWER_OF_2 ∨ u.m_current_zoom = v)) ∧
    (u.zoom K v).zoom K v = u.zoom K v ∧
    ((documented_values.SEQ66_MINIMUM_ZOOM = 1 ∧ documented_values.SEQ66_MAXIMUM_ZOOM = 512 ∧
        documented_values.SEQ66_USE_ZOOM_POWER_OF_2 = 0) ∧
      (u.zoom documented_values 0).m_current_zoom = 0 ∧
      (u.zoom documented_values 1).m_current_zoom = 1 ∧
      (u.zoom documented_values 512).m_current_zoom = 512 ∧
      u.zoom documented_values 513 = u ∧ u.zoom documented_values (-1) = u) := by
  have hset : ((K.SEQ66_MINIMUM_ZOOM ≤ v ∧ v ≤ K.SEQ66_MAXIMUM_ZOOM) ∨
        v = K.SEQ66_USE_ZOOM_POWER_OF_2) →
      u.zoom K v = { u with m_current_zoom := v } := by
    intro h
    simp [usrsettings.zoom, h]
  have hskip : ¬ ((K.SEQ66_MINIMUM_ZOOM ≤ v ∧ v ≤ K.SEQ66_MAXIMUM_ZOOM) ∨
        v = K.SEQ66_USE_ZOOM_POWER_OF_2) →
      u.zoom K v = u := by
    intro h
    simp [usrsettings.zoom, h]
  refine ⟨hset, hskip, ?_, ?_, ⟨rfl, rfl, rfl⟩, ?_, ?_, ?_, ?_, ?_⟩
  · by_cases h : (K.SEQ66_MINIMUM_ZOOM ≤ v ∧ v ≤ K.SEQ66_MAXIMUM_ZOOM) ∨
        v = K.SEQ66_USE_ZOOM_POWER_OF_2
    · rw [hset h]
      constructor
      · intro _
        rcases h with h | h
        · exact Or.inl h
        · exact Or.inr (Or.inl h)
      · intro _
        rfl
    · rw [hskip h]
      constructor
      · intro hv
        exact Or.inr (Or.inr hv)
      · intro hv
        rcases hv with hv | hv | hv
        · exact absurd (Or.inl hv) h
        · exact absurd (Or.inr hv) h
        · exact hv
  · by_cases h : (K.SEQ66_MINIMUM_ZOOM ≤ v ∧ v ≤ K.SEQ66_MAXIMUM_ZOOM) ∨
        v = K.SEQ66_USE_ZOOM_POWER_OF_2
    · simp [usrsettings.zoom, h]
    · simp [usrsettings.zoom, h]
  · simp [usrsettings.zoom, documented_values]
  · simp [usrsettings.zoom, documented_values]
  · simp [usrsettings.zoom, documented_values]
  · simp [usrsettings.zoom, documented_values]
  · simp [usrsettings.zoom, documented_values]

/-- C11 on the default settings with the documented values: 16 is stored, 600
changes nothing. -/
theorem zoom_sets_within_range_witness :
    (default_settings.zoom documented_values 16).m_current_zoom = 16 ∧
    default_settings.zoom documented_values 600 = default_settings :=
  ⟨congrArg usrsettings.m_current_zoom
      ((zoom_sets_within_range documented_values 16 default_settings).1
        (Or.inl (by decide))),
   (zoom_sets_within_range documented_values 600 default_settings).2.1 (by decide)⟩

/-! ## User settings: progress box -/

/-- C12, what the code does.  On settings that hold a progress box of 0.5 by
0.5, `progress_box_size(-1.0, 0.25)` is not ignored: the width becomes the
default 0.80 and the height becomes 0.25.  In general each dimension is
handled on its own: a value that is not negative is stored, a negative one is
replaced by the default of that dimension. -/
theorem progress_box_size_negative_not_ignored :
    (settings_box_half.m_progress_box_width = 1 / 2 ∧
      settings_box_half.m_progress_box_height = 1 / 2) ∧
    (settings_box_half.progress_box_size (-1) (1 / 4)).m_progress_box_width = 8 / 10 ∧
    (settings_box_half.progress_box_size (-1) (1 / 4)).m_progress_box_height = 1 / 4 ∧
    (settings_box_half.progress_box_size (-1) (1 / 4)).m_progress_box_width
      ≠ settings_box_half.m_progress_box_width ∧
    (settings_box_half.progress_box_size (-1) (1 / 4)).m_progress_box_height
      ≠ settings_box_half.m_progress_box_height ∧
    (∀ (w h : Rat) (u : usrsettings),
      (0 ≤ w → (u.progress_box_size w h).m_progress_box_width = w) ∧
      (w < 0 → (u.progress_box_size w h).m_progress_box_width = 8 / 10) ∧
      (0 ≤ h → (u.progress_box_size w h).m_progress_box_height = h) ∧
      (h < 0 → (u.progress_box_size w h).m_progress_box_height = 4 / 10)) := by
  refine ⟨⟨?_, ?_⟩, ?_, ?_, ?_, ?_, ?_⟩
  · norm_num [settings_box_half, usrsettings.progress_box_size]
  · norm_num [settings_box_half, usrsettings.progress_box_size]
  · norm_num [settings_box_half, usrsettings.progress_box_size, c_progress_box_width]
  · norm_num [settings_box_half, usrsettings.progress_box_size]
  · norm_num [settings_box_half, usrsettings.progress_box_size, c_progress_box_width]
  · norm_num [settings_box_half, usrsettings.progress_box_size]
  · intro w h u
    refine ⟨?_, ?_, ?_, ?_⟩
    · intro hw
      simp [usrsettings.progress_box_size, hw]
    · intro hw
      have hn : ¬ (0 ≤ w) := not_le.mpr hw
      simp [usrsettings.progress_box_size, hn, c_progress_box_width]
    · intro hh
      simp [usrsettings.progress_box_size, hh]
    · intro hh
      have hn : ¬ (0 ≤ h) := not_le.mpr hh
      simp [usrsettings.progress_box_size, hn, c_progress_box_height]

/-! ## User settings: session manager -/

/-- C13. On a settings state whose session-manager option bit is clear, for
every string `s`, `session_manager(s)` followed by `session_manager_name()`
gives "nsm" if `s` is "nsm", "lash" if `s` is "lash", and "none" for every
other `s`. -/
theorem session_manager_name_after_set (K : header_values) (s : String) (u : usrsettings)
    (hbit : u.test_option_bit K.option_session_mgr = false) :
    (s = "nsm" → (u.session_manager K s).session_manager_name = "nsm") ∧
    (s = "lash" → (u.session_manager K s).session_manager_name = "lash") ∧
    (s ≠ "nsm" → s ≠ "lash" → (u.session_manager K s).session_manager_name = "none") := by
  have hb : ¬ (u.test_option_bit K.option_session_mgr = true) := by simp [hbit]
  refine ⟨?_, ?_, ?_⟩
  · intro h
    subst h
    simp [usrsettings.session_manager, hb, usrsettings.session_manager_name,
      usrsettings.set_option_bit, usrsettings.wants_nsm_session]
  · intro h
    subst h
    have hne : ¬ ("lash" = "nsm") := by decide
    simp [usrsettings.session_manager, hb, usrsettings.session_manager_name,
      usrsettings.set_option_bit, usrsettings.wants_nsm_session,
      usrsettings.wants_lash_session, hne]
  · intro h1 h2
    simp [usrsettings.session_manager, hb, usrsettings.session_manager_name,
      usrsettings.set_option_bit, usrsettings.wants_nsm_session,
      usrsettings.wants_lash_session, h1, h2]

/-- C13 on the default settings: "nsm" gives "nsm", "lash" gives "lash", and
"NSM" gives "none". -/
theorem session_manager_name_after_set_witness :
    default_settings.test_option_bit documented_values.option_session_mgr = false ∧
    (default_settings.session_manager documented_values "nsm").session_manager_name = "nsm" ∧
    (default_settings.session_manager documented_values "lash").session_manager_name
      = "lash" ∧
    (default_settings.session_manager documented_values "NSM").session_manager_name
      = "none" :=
  ⟨by decide,
   (session_manager_name_after_set documented_values "nsm" default_settings (by decide)).1 rfl,
   (session_manager_name_after_set documented_values "lash" default_settings
      (by decide)).2.1 rfl,
   (session_manager_name_after_set documented_values "NSM" default_settings
      (by decide)).2.2 (by decide) (by decide)⟩

/-! ## User settings: log file -/

/-- C14. `option_logfile()` returns the empty string when no log-file name is
set, and the log-file name unchanged when it contains a "/".  Otherwise, for a
non-empty configuration directory, it returns the directory followed by the
name, with a "/" added between them only if the directory does not already end
in one. -/
theorem option_logfile_cases (dir : String) (u : usrsettings) :
    (u.m_user_option_logfile = "" → u.option_logfile dir = some "") ∧
    (u.m_user_option_logfile ≠ "" → '/' ∈ u.m_user_option_logfile.data →
      u.option_logfile dir = some u.m_user_option_logfile) ∧
    (u.m_user_option_logfile ≠ "" → '/' ∉ u.m_user_option_logfile.data → dir ≠ "" →
      (dir.data.getLast? = some '/' →
        u.option_logfile dir = some (dir ++ u.m_user_option_logfile)) ∧
      (dir.data.getLast? ≠ some '/' →
        u.option_logfile dir = some (dir ++ "/" ++ u.m_user_option_logfile)) ∧
      (∃ r : String, u.option_logfile dir = some r ∧
        (r.data = dir.data ++ u.m_user_option_logfile.data ∨
         r.data = dir.data ++ '/' :: u.m_user_option_logfile.data))) := by
  have hne : ∀ t : String, t ≠ "" → ¬ (t.data = []) := by
    intro t ht hd
    exact ht (String.ext hd)
  refine ⟨?_, ?_, ?_⟩
  · intro h
    simp [usrsettings.option_logfile, h]
  · intro h hs
    have hd := hne _ h
    simp [usrsettings.option_logfile, hd, hs]
  · intro h hs hdir
    have hd := hne _ h
    have hdd := hne _ hdir
    obtain ⟨c, hc⟩ : ∃ c, dir.data.getLast? = some c := by
      cases hl : dir.data.getLast? with
      | none => exact absurd (List.getLast?_eq_none_iff.mp hl) hdd
      | some c => exact ⟨c, rfl⟩
    have hyes : dir.data.getLast? = some '/' →
        u.option_logfile dir = some (dir ++ u.m_user_option_logfile) := by
      intro hl
      simp [usrsettings.option_logfile, hd, hs, hl]
    have hno : dir.data.getLast? ≠ some '/' →
        u.option_logfile dir = some (dir ++ "/" ++ u.m_user_option_logfile) := by
      intro hl
      have hcne : ¬ (c = '/') := by
        intro hcc
        rw [hcc] at hc
        exact hl hc
      simp [usrsettings.option_logfile, hd, hs, hc, hcne]
    refine ⟨hyes, hno, ?_⟩
    by_cases hl : dir.data.getLast? = some '/'
    · exact ⟨_, hyes hl, Or.inl (by simp)⟩
    · exact ⟨_, hno hl, Or.inr (by simp)⟩

/-- C14 for the directory "/home/u/.config/seq66" and the name "seq66.log":
one "/" is added; with the directory already ending in "/" none is. -/
theorem option_logfile_cases_witness :
    usrsettings.option_logfile "/home/u/.config/seq66"
        { default_settings with m_user_option_logfile := "seq66.log" }
      = some ("/home/u/.config/seq66" ++ "/" ++ "seq66.log") ∧
    usrsettings.option_logfile "/home/u/.config/seq66/"
        { default_settings with m_user_option_logfile := "seq66.log" }
      = some ("/home/u/.config/seq66/" ++ "seq66.log") :=
  ⟨((option_logfile_cases "/home/u/.config/seq66"
        { default_settings with m_user_option_logfile := "seq66.log" }).2.2
      (by decide) (by decide) (by decide)).2.1 (by decide),
   ((option_logfile_cases "/home/u/.config/seq66/"
        { default_settings with m_user_option_logfile := "seq66.log" }).2.2
      (by decide) (by decide) (by decide)).1 (by decide)⟩

/-! ## User settings: user busses -/

/-- C15. For every index that is negative or not less than the number of
defined user busses, and every channel and instrument, the lookup
`private_bus(index)` yields the invalid bus object and never an element of the
container, and `set_bus_instrument(index, channel, instrum)` returns false and
leaves the settings, every defined user bus included, unchanged. -/
theorem set_bus_instrument_out_of_range (index channel instrum : Int) (u : usrsettings)
    (h : index < 0 ∨ (u.m_midi_buses.length : Int) ≤ index) :
    u.private_bus index = bus_ref.s_invalid ∧
    (∀ i : Nat, u.private_bus index ≠ bus_ref.element i) ∧
    u.deref (u.private_bus index) = usermidibus.s_invalid ∧
    (u.set_bus_instrument index channel instrum).1 = false ∧
    (u.set_bus_instrument index channel instrum).2 = u ∧
    (u.set_bus_instrument index channel instrum).2.m_midi_buses = u.m_midi_buses := by
  have hguard : ¬ (0 ≤ index ∧ index < (u.m_midi_buses.length : Int)) := by omega
  have hp : u.private_bus index = bus_ref.s_invalid := by
    simp [usrsettings.private_bus, hguard]
  have hset : u.set_bus_instrument index channel instrum = (false, u) := by
    simp [usrsettings.set_bus_instrument, hp, usrsettings.deref, usermidibus.is_valid,
      usermidibus.s_invalid]
  refine ⟨hp, ?_, ?_, ?_, ?_, ?_⟩
  · intro i
    rw [hp]
    exact fun hc => by cases hc
  · rw [hp]
    rfl
  · rw [hset]
  · rw [hset]
  · rw [hset]

/-- C15 on the default settings, which define no bus: index 0 is out of
range. -/
theorem set_bus_instrument_out_of_range_witness :
    ((0 : Int) < 0 ∨ (default_settings.m_midi_buses.length : Int) ≤ 0) ∧
    (default_settings.set_bus_instrument 0 3 7).1 = false ∧
    (default_settings.set_bus_instrument 0 3 7).2 = default_settings :=
  ⟨Or.inr (by decide),
   (set_bus_instrument_out_of_range 0 3 7 default_settings (Or.inr (by decide))).2.2.2.1,
   (set_bus_instrument_out_of_range 0 3 7 default_settings (Or.inr (by decide))).2.2.2.2.1⟩

/-! ## User settings: window scale -/

/-- One call of `window_scale` keeps both stored scales within the limits. -/
theorem window_scale_keeps_limits (K : header_values) (ws wsy : Rat) (u : usrsettings)
    (h : (1 / 2 ≤ u.m_window_scale ∧ u.m_window_scale ≤ 3) ∧
      (1 / 2 ≤ u.m_window_scale_y ∧ u.m_window_scale_y ≤ 3)) :
    (1 / 2 ≤ (u.window_scale K ws wsy).2.m_window_scale ∧
      (u.window_scale K ws wsy).2.m_window_scale ≤ 3) ∧
    (1 / 2 ≤ (u.window_scale K ws wsy).2.m_window_scale_y ∧
      (u.window_scale K ws wsy).2.m_window_scale_y ≤ 3) := by
  by_cases hr : (1 / 2 : Rat) ≤ ws ∧ ws ≤ 3
  · by_cases hb : u.test_option_bit K.option_scale = true
    · simpa [usrsettings.window_scale, hb] using h
    · by_cases hy : (1 / 2 : Rat) ≤ wsy ∧ wsy ≤ 3
      · simp only [usrsettings.window_scale, c_window_scale_min, c_window_scale_max, hr, hb, hy,
          usrsettings.set_option_bit]
        simp only [and_self, decide_True, not_false_eq_true, if_true]
        exact ⟨hr, hy⟩
      · simp only [usrsettings.window_scale, c_window_scale_min, c_window_scale_max, hr, hb, hy,
          usrsettings.set_option_bit]
        simp only [and_self, decide_True, not_false_eq_true, if_true, if_false]
        exact ⟨hr, hr⟩
  · simp only [usrsettings.window_scale, c_window_scale_min, c_window_scale_max, hr]
    simpa using h

/-- Both scales stay within the limits along any sequence of `window_scale`
calls that starts in a state where they are. -/
theorem window_scale_fold_limits (K : header_values) (calls : List (Rat × Rat))
    (u : usrsettings)
    (h : (1 / 2 ≤ u.m_window_scale ∧ u.m_window_scale ≤ 3) ∧
      (1 / 2 ≤ u.m_window_scale_y ∧ u.m_window_scale_y ≤ 3)) :
    (1 / 2 ≤ (calls.foldl (fun s c => (usrsettings.window_scale K c.1 c.2 s).2) u
        ).m_window_scale ∧
      (calls.foldl (fun s c => (usrsettings.window_scale K c.1 c.2 s).2) u
        ).m_window_scale ≤ 3) ∧
    (1 / 2 ≤ (calls.foldl (fun s c => (usrsettings.window_scale K c.1 c.2 s).2) u
        ).m_window_scale_y ∧
      (calls.foldl (fun s c => (usrsettings.window_scale K c.1 c.2 s).2) u
        ).m_window_scale_y ≤ 3) := by
  induction calls generalizing u with
  | nil => simpa using h
  | cons c rest ih =>
    simp only [List.foldl_cons]
    exact ih _ (window_scale_keeps_limits K c.1 c.2 u h)

/-- C16. In every settings state reached from `set_defaults()` by any sequence
of `window_scale(ws, wsy)` calls, the stored horizontal and vertical window
scales lie within 0.5 and 3.0 inclusive.  On any state, `window_scale` returns
true exactly when `ws` is within those limits; and when it stores (`ws` within
the limits, scale option bit clear), it stores `ws`, and stores `wsy` if that
is within the limits and `ws` in its place otherwise. -/
theorem window_scale_within_limits (K : header_values) (u0 : usrsettings)
    (calls : List (Rat × Rat)) (ws wsy : Rat) (u : usrsettings) :
    ((1 / 2 ≤ (after_window_scales K u0 calls).m_window_scale ∧
        (after_window_scales K u0 calls).m_window_scale ≤ 3) ∧
      (1 / 2 ≤ (after_window_scales K u0 calls).m_window_scale_y ∧
        (after_window_scales K u0 calls).m_window_scale_y ≤ 3)) ∧
    ((u.window_scale K ws wsy).1 = true ↔ (1 / 2 ≤ ws ∧ ws ≤ 3)) ∧
    ((1 / 2 ≤ ws ∧ ws ≤ 3) → u.test_option_bit K.option_scale = false →
      (u.window_scale K ws wsy).2.m_window_scale = ws ∧
      ((1 / 2 ≤ wsy ∧ wsy ≤ 3) → (u.window_scale K ws wsy).2.m_window_scale_y = wsy) ∧
      (¬ (1 / 2 ≤ wsy ∧ wsy ≤ 3) → (u.window_scale K ws wsy).2.m_window_scale_y = ws)) ∧
    (¬ (1 / 2 ≤ ws ∧ ws ≤ 3) → (u.window_scale K ws wsy).2 = u) := by
  refine ⟨?_, ?_, ?_, ?_⟩
  · unfold after_window_scales
    apply window_scale_fold_limits
    norm_num [usrsettings.set_defaults, usrsettings.normalize, c_window_scale_default]
  · unfold usrsettings.window_scale
    simp only [c_window_scale_min, c_window_scale_max]
    split
    · split <;> simp
    · simp
  · intro hr hbit
    have hb : ¬ (u.test_option_bit K.option_scale = true) := by simp [hbit]
    refine ⟨?_, ?_, ?_⟩
    · by_cases hy : (1 / 2 : Rat) ≤ wsy ∧ wsy ≤ 3
      · simp only [usrsettings.window_scale, c_window_scale_min, c_window_scale_max, hr, hb, hy,
          usrsettings.set_option_bit]
        simp
      · simp only [usrsettings.window_scale, c_window_scale_min, c_window_scale_max, hr, hb, hy,
          usrsettings.set_option_bit]
        simp
    · intro hy
      simp only [usrsettings.window_scale, c_window_scale_min, c_window_scale_max, hr, hb, hy,
        usrsettings.set_option_bit]
      simp
    · intro hy
      simp only [usrsettings.window_scale, c_window_scale_min, c_window_scale_max, hr, hb, hy,
        usrsettings.set_option_bit]
      simp
  · intro hr
    simp only [usrsettings.window_scale, c_window_scale_min, c_window_scale_max, hr]
    simp

/-- C16 on the default settings: `window_scale(0.75, 5.0)` returns true and
stores 0.75 for both scales; `window_scale(4.0, 1.0)` returns false. -/
theorem window_scale_within_limits_witness :
    (default_settings.window_scale documented_values (3 / 4) 5).1 = true ∧
    (default_settings.window_scale documented_values (3 / 4) 5).2.m_window_scale = 3 / 4 ∧
    (default_settings.window_scale documented_values (3 / 4) 5).2.m_window_scale_y = 3 / 4 ∧
    ¬ ((default_settings.window_scale documented_values 4 1).1 = true) :=
  ⟨(window_scale_within_limits documented_values default_settings [] (3 / 4) 5
      default_settings).2.1.2 (by norm_num),
   ((window_scale_within_limits documented_values default_settings [] (3 / 4) 5
      default_settings).2.2.1 (by norm_num) (by decide)).1,
   ((window_scale_within_limits documented_values default_settings [] (3 / 4) 5
      default_settings).2.2.1 (by norm_num) (by decide)).2.2 (by norm_num),
   fun h => absurd ((window_scale_within_limits documented_values default_settings [] 4 1
      default_settings).2.1.1 h) (by norm_num)⟩

/-! ## Undo and redo -/

/-- C17. For every trigger timeline, every state of the two stacks, every
stack depth and every single mutation applied to the timeline, `undo()`
followed by `redo()` leaves the timeline identical to what it was before the
pair of calls, that is to the mutated timeline; with a stack depth of at least
one the undo does restore the timeline from before the mutation, and the pair
restores the stacks as well. -/
theorem undo_redo_round_trip (depth : Nat) (mutation : List Trigger → List Trigger)
    (s : UndoRedo) :
    (((s.mutate depth mutation).undo depth).redo depth).timeline
        = (s.mutate depth mutation).timeline ∧
    (0 < depth →
      ((s.mutate depth mutation).undo depth).timeline = s.timeline ∧
      ((s.mutate depth mutation).undo depth).redo depth = s.mutate depth mutation) := by
  rcases depth with _ | d
  · constructor
    · simp [UndoRedo.mutate, UndoRedo.undo, UndoRedo.redo, UndoRedo.push]
    · intro h
      exact absurd h (by decide)
  · have hundo : (s.mutate (d + 1) mutation).undo (d + 1)
        = { timeline := s.timeline
            undo_stack := s.undo_stack.take d
            redo_stack := [mutation s.timeline] } := by
      simp [UndoRedo.mutate, UndoRedo.undo, UndoRedo.push]
    have hredo : ((s.mutate (d + 1) mutation).undo (d + 1)).redo (d + 1)
        = s.mutate (d + 1) mutation := by
      rw [hundo]
      simp [UndoRedo.mutate, UndoRedo.redo, UndoRedo.push, List.take_take]
    refine ⟨by rw [hredo], fun _ => ⟨by rw [hundo], hredo⟩⟩

/-- C17 for a timeline of one trigger, the mutation that removes every
trigger, and a stack depth of 3. -/
theorem undo_redo_round_trip_witness :
    (0 < 3) ∧
    ((UndoRedo.mutate 3 (fun _ => [])
        { timeline := [{ pattern_id := 0, start_tick := 0, end_tick := 192,
                         offset_tick := 0, transposed := 0 }]
          undo_stack := [], redo_stack := [] }).undo 3).timeline
      = [{ pattern_id := 0, start_tick := 0, end_tick := 192,
           offset_tick := 0, transposed := 0 }] :=
  ⟨by decide,
   ((undo_redo_round_trip 3 (fun _ => [])
      { timeline := [{ pattern_id := 0, start_tick := 0, end_tick := 192,
                       offset_tick := 0, transposed := 0 }]
        undo_stack := [], redo_stack := [] }).2 (by decide)).1⟩

/-! ## Tick clock -/

/-- C18. With looping enabled and `loop_start < loop_end`, an advance that
takes the clock to or past `loop_end` succeeds and leaves it at
`loop_start + (now - loop_end)`, `now` being the advanced value: the overshoot
past `loop_end` is kept rather than cut off.  With `loop_start = 480` and
`loop_end = 1920`, advancing from tick 1900 by 40 ticks yields tick 500. -/
theorem advance_wraps (c : TickClock) (delta_ticks : Int)
    (hloop : c.loop_enabled = true) (hbounds : c.loop_start < c.loop_end)
    (hpast : c.loop_end ≤ c.now + delta_ticks) :
    c.advance delta_ticks
        = Except.ok { c with now := c.loop_start + (c.now + delta_ticks - c.loop_end) } ∧
    (∀ d : TickClock, c.advance delta_ticks = Except.ok d →
      d.now - c.loop_start = c.now + delta_ticks - c.loop_end ∧
      (c.loop_end < c.now + delta_ticks → d.now ≠ c.loop_start)) ∧
    TickClock.advance 40
        { now := 1900, loop_enabled := true, loop_start := 480, loop_end := 1920 }
      = Except.ok { now := 500, loop_enabled := true, loop_start := 480, loop_end := 1920 } := by
  have hguard : c.loop_enabled = true ∧ c.loop_end ≤ c.now + delta_ticks := ⟨hloop, hpast⟩
  have hnot : ¬ (c.loop_end ≤ c.loop_start) := by omega
  have hadv : c.advance delta_ticks
      = Except.ok { c with now := c.loop_start + (c.now + delta_ticks - c.loop_end) } := by
    simp [TickClock.advance, hguard, hnot]
  refine ⟨hadv, ?_, rfl⟩
  intro d hd
  rw [hadv] at hd
  injection hd with hd
  subst hd
  constructor
  · show c.loop_start + (c.now + delta_ticks - c.loop_end) - c.loop_start
        = c.now + delta_ticks - c.loop_end
    omega
  · intro hlt
    show c.loop_start + (c.now + delta_ticks - c.loop_end) ≠ c.loop_start
    omega

/-- C18 at the clock of the example: looping from 480 to 1920, at tick 1900,
advanced by 40. -/
theorem advance_wraps_witness :
    ((480 : Int) < 1920 ∧ (1920 : Int) ≤ 1900 + 40) ∧
    TickClock.advance 40
        { now := 1900, loop_enabled := true, loop_start := 480, loop_end := 1920 }
      = Except.ok { now := 480 + (1900 + 40 - 1920), loop_enabled := true,
                    loop_start := 480, loop_end := 1920 } :=
  ⟨by decide,
   (advance_wraps { now := 1900, loop_enabled := true, loop_start := 480, loop_end := 1920 }
      40 rfl (by decide) (by decide)).1⟩

/-! ## Playback resolver -/

/-- C19. On a timeline whose triggers do not overlap, for every trigger of the
timeline and every tick `now` inside its span, the resolver returns that
trigger with the play position
`(now - start_tick + offset_tick) mod loop_length`, which lies in
`[0, loop_length)` when the loop length of the pattern is positive.  A trigger
with `start_tick = 0`, `end_tick = 192`, `offset_tick = 0` over a pattern of
loop length 96 resolves to 4 at `now = 100`. -/
theorem resolve_play_position (loop_length : Nat → Int) (timeline : List Trigger)
    (now : Int) (t : Trigger)
    (hno : timeline.Pairwise
      (fun a b => a.end_tick ≤ b.start_tick ∨ b.end_tick ≤ a.start_tick))
    (ht : t ∈ timeline) (hstart : t.start_tick ≤ now) (hend : now < t.end_tick) :
    resolve loop_length timeline now
        = some (t, (now - t.start_tick + t.offset_tick) % loop_length t.pattern_id) ∧
    (0 < loop_length t.pattern_id →
      0 ≤ (now - t.start_tick + t.offset_tick) % loop_length t.pattern_id ∧
      (now - t.start_tick + t.offset_tick) % loop_length t.pattern_id
        < loop_length t.pattern_id) ∧
    resolve (fun _ => 96)
        [{ pattern_id := 0, start_tick := 0, end_tick := 192, offset_tick := 0,
           transposed := 0 }] 100
      = some ({ pattern_id := 0, start_tick := 0, end_tick := 192, offset_tick := 0,
                transposed := 0 }, 4) := by
  have hact : Trigger.active now t = true := by
    simp [Trigger.active, hstart, hend]
  have hsome : (timeline.reverse.find? (Trigger.active now)).isSome = true := by
    rw [List.find?_isSome]
    exact ⟨t, List.mem_reverse.mpr ht, hact⟩
  obtain ⟨t2, ht2⟩ := Option.isSome_iff_exists.mp hsome
  have hmem2 : t2 ∈ timeline := List.mem_reverse.mp (List.mem_of_find?_eq_some ht2)
  have hact2 : Trigger.active now t2 = true := List.find?_some ht2
  have hspan2 : t2.start_tick ≤ now ∧ now < t2.end_tick := by
    simpa [Trigger.active] using hact2
  have hsym : Symmetric
      (fun a b : Trigger => a.end_tick ≤ b.start_tick ∨ b.end_tick ≤ a.start_tick) := by
    intro a b hab
    exact hab.symm
  have heq : t2 = t := by
    by_contra hne
    have hR := List.Pairwise.forall hsym hno hmem2 ht hne
    rcases hR with h | h <;> omega
  refine ⟨?_, ?_, by decide⟩
  · unfold resolve
    rw [ht2, heq]
    rfl
  · intro hpos
    exact ⟨Int.emod_nonneg _ (by omega), Int.emod_lt_of_pos _ hpos⟩

/-- C19 at the trigger of the example, alone on its timeline, at tick 100. -/
theorem resolve_play_position_witness :
    ((0 : Int) ≤ 100 ∧ (100 : Int) < 192) ∧
    resolve (fun _ => 96)
        [{ pattern_id := 0, start_tick := 0, end_tick := 192, offset_tick := 0,
           transposed := 0 }] 100
      = some ({ pattern_id := 0, start_tick := 0, end_tick := 192, offset_tick := 0,
                transposed := 0 }, (100 - 0 + 0) % 96) :=
  ⟨by decide,
   (resolve_play_position (fun _ => 96)
      [{ pattern_id := 0, start_tick := 0, end_tick := 192, offset_tick := 0,
         transposed := 0 }] 100
      { pattern_id := 0, start_tick := 0, end_tick := 192, offset_tick := 0, transposed := 0 }
      (List.pairwise_singleton _ _) (List.mem_singleton.mpr rfl)
      (by decide) (by decide)).1⟩

/-! ## Song editor: zoom -/

/-- C20. When the time bar and the song roll are at the maximum zoom,
`zoom_in` leaves the frame, and so the zoom of both panels, unchanged, however
often it is repeated; likewise `zoom_out` at the minimum zoom; and
`reset_zoom` done twice is `reset_zoom` done once.  Each operation is total:
it yields a frame, never an error, and keeps a zoom within the bounds within
them. -/
theorem zoom_idempotent_at_bounds (K : header_values) (f : qperfeditframe64) :
    (f.m_perftime.m_zoom = K.SEQ66_MAXIMUM_ZOOM → f.m_perfroll.m_zoom = K.SEQ66_MAXIMUM_ZOOM →
      f.zoom_in K = f ∧ ∀ n : Nat, (qperfeditframe64.zoom_in K)^[n] f = f) ∧
    (f.m_perftime.m_zoom = K.SEQ66_MINIMUM_ZOOM → f.m_perfroll.m_zoom = K.SEQ66_MINIMUM_ZOOM →
      f.zoom_out K = f ∧ ∀ n : Nat, (qperfeditframe64.zoom_out K)^[n] f = f) ∧
    (f.reset_zoom K).reset_zoom K = f.reset_zoom K ∧
    ((K.SEQ66_MINIMUM_ZOOM ≤ f.m_perfroll.m_zoom ∧ f.m_perfroll.m_zoom ≤ K.SEQ66_MAXIMUM_ZOOM) →
      (K.SEQ66_MINIMUM_ZOOM ≤ (f.zoom_in K).m_perfroll.m_zoom ∧
        (f.zoom_in K).m_perfroll.m_zoom ≤ K.SEQ66_MAXIMUM_ZOOM) ∧
      (K.SEQ66_MINIMUM_ZOOM ≤ (f.zoom_out K).m_perfroll.m_zoom ∧
        (f.zoom_out K).m_perfroll.m_zoom ≤ K.SEQ66_MAXIMUM_ZOOM)) ∧
    ((K.SEQ66_MINIMUM_ZOOM ≤ f.m_perftime.m_zoom ∧ f.m_perftime.m_zoom ≤ K.SEQ66_MAXIMUM_ZOOM) →
      (K.SEQ66_MINIMUM_ZOOM ≤ (f.zoom_in K).m_perftime.m_zoom ∧
        (f.zoom_in K).m_perftime.m_zoom ≤ K.SEQ66_MAXIMUM_ZOOM) ∧
      (K.SEQ66_MINIMUM_ZOOM ≤ (f.zoom_out K).m_perftime.m_zoom ∧
        (f.zoom_out K).m_perftime.m_zoom ≤ K.SEQ66_MAXIMUM_ZOOM)) := by
  refine ⟨?_, ?_, ?_, ?_, ?_⟩
  · intro ht hr
    have hfix : f.zoom_in K = f := by
      simp [qperfeditframe64.zoom_in, qperftime.zoom_in, qperfroll.zoom_in, ht, hr]
    exact ⟨hfix, fun n => Function.iterate_fixed hfix n⟩
  · intro ht hr
    have hfix : f.zoom_out K = f := by
      simp [qperfeditframe64.zoom_out, qperftime.zoom_out, qperfroll.zoom_out, ht, hr]
    exact ⟨hfix, fun n => Function.iterate_fixed hfix n⟩
  · simp [qperfeditframe64.reset_zoom, qperftime.reset_zoom, qperfroll.reset_zoom]
  · intro h
    constructor
    · simp only [qperfeditframe64.zoom_in, qperfroll.zoom_in]
      split
      · simp
        omega
      · exact h
    · simp only [qperfeditframe64.zoom_out, qperfroll.zoom_out]
      split
      · simp
        omega
      · exact h
  · intro h
    constructor
    · simp only [qperfeditframe64.zoom_in, qperftime.zoom_in]
      split
      · simp
        omega
      · exact h
    · simp only [qperfeditframe64.zoom_out, qperftime.zoom_out]
      split
      · simp
        omega
      · exact h

/-- C20 on a frame whose panels are both at the documented maximum zoom 512:
`zoom_in` changes nothing. -/
theorem zoom_idempotent_at_bounds_witness :
    qperfeditframe64.zoom_in documented_values
        { new_frame 192 with
          m_perfroll := { m_snap := 96, m_measure_length := 768, m_beat_length := 192,
                          m_zoom := 512 }
          m_perftime := { m_snap := 96, m_measure_length := 768, m_zoom := 512 } }
      = { new_frame 192 with
          m_perfroll := { m_snap := 96, m_measure_length := 768, m_beat_length := 192,
                          m_zoom := 512 }
          m_perftime := { m_snap := 96, m_measure_length := 768, m_zoom := 512 } } :=
  ((zoom_idempotent_at_bounds documented_values
      { new_frame 192 with
        m_perfroll := { m_snap := 96, m_measure_length := 768, m_beat_length := 192,
                        m_zoom := 512 }
        m_perftime := { m_snap := 96, m_measure_length := 768, m_zoom := 512 } }).1
    rfl rfl).1

end seq66
